import Mathlib

/-!
# js2mouse: event-to-action translation

A shallow embedding of `src/js2mouse.c` and `src/js2mouse_v1.c`.

* C `int` values are `Int`; the one place where signed overflow can occur
  (`-deadZone` in `handleStick`) wraps to 32 bits explicitly.
* `printf` and `system` calls are recorded, in program order, in a list of `Out`.
* An array read outside the array has no defined result; it is `none` /
  `outOfBoundsRead` / `fault` in the embedding.
* Definitions taken from `js2mouse_v1.c` live in namespace `V1`; code that is
  textually the same in both files is embedded once.
-/

namespace Js2Mouse

/-! ## Observable effects -/

/-- One observable effect of the program: text written with `printf`, or a command line
handed to `system` (the input injector). -/
inductive Out where
  | print (text : String)
  | system (cmd : String)
  deriving DecidableEq, Repr

/-- The injector command lines of a trace, in order; `printf` output is dropped. -/
def commands : List Out → List String
  | [] => []
  | Out.print _ :: rest => commands rest
  | Out.system c :: rest => c :: commands rest

/-! ## Preprocessor constants (identical in both files) -/

def DEVICE_N_LEN : Nat := 256
def CMD_LEN : Nat := 256
def R_STICK_DEADZ : Int := 1000
def L_STICK_DEADZ : Int := R_STICK_DEADZ
def R_TRIGGER_DEADZ : Int := 1000
def L_TRIGGER_DEADZ : Int := R_TRIGGER_DEADZ
def D_PAD_DEADZ : Int := 1000

def TIME_OUT : Int := 5

def A_BTN : Nat := 0
def B_BTN : Nat := 1
def X_BTN : Nat := 2
def Y_BTN : Nat := 3
def LB_BTN : Nat := 4
def RB_BTN : Nat := 5
def BACK_BTN : Nat := 6
def START_BTN : Nat := 7
def XBOX_BTN : Nat := 8

def L_STICK_H : Nat := 0
def L_STICK_V : Nat := 1
def L_TRIGGER : Nat := 2
def R_STICK_H : Nat := 3
def R_STICK_V : Nat := 4
def R_TRIGGER : Nat := 5
def D_PAD_H : Nat := 6
def D_PAD_V : Nat := 7

def CLICK_L : Nat := 1
def CLICK_M : Nat := 2
def CLICK_R : Nat := 3
def SCROLL_U : Nat := 4
def SCROLL_D : Nat := 5

def ARROW_U : Nat := 111
def ARROW_L : Nat := 113
def ARROW_R : Nat := 114
def ARROW_D : Nat := 116

/-! ## Machine integers -/

/-- The values of a C `int` (32 bits, two's complement). -/
def isInt32 (x : Int) : Prop := -2147483648 ≤ x ∧ x ≤ 2147483647

instance (x : Int) : Decidable (isInt32 x) := by
  unfold isInt32
  exact inferInstance

/-- Reduction of an integer to the 32-bit two's complement range. -/
def wrapInt32 (x : Int) : Int := (x + 2147483648) % 4294967296 - 2147483648

/-- Unary minus on a C `int`: `-x`, wrapping at `INT_MIN`. -/
def negInt32 (x : Int) : Int := wrapInt32 (-x)

/-! ## handleStick -/

/-- The array read `axes[i]`: `none` when `i` is not an index of the array. -/
def readAxis (axes : List Int) (i : Int) : Option Int :=
  if 0 ≤ i ∧ i < (axes.length : Int) then axes[i.toNat]? else none

/-- What `handleStick` has computed when it reaches its final `if` (lines 406-447 of both
files, which are the same text). -/
inductive Nudges where
  /-- The bounds check failed: the function returned -1. -/
  | indexError
  /-- The function read `axes[hAxisNum]` or `axes[vAxisNum]` outside the array. -/
  | outOfBoundsRead
  /-- The locals `nudgeH` and `nudgeV`. -/
  | values (nudgeH nudgeV : Int)
  deriving DecidableEq, Repr

/-- Lines 406-447 of `handleStick`: bounds check, the two array reads, and the two nudge
computations. `/` on C `int`s truncates toward zero (`Int.tdiv`). -/
def stickNudges (axes : List Int) (axes_len hAxisNum vAxisNum deadZone : Int) : Nudges :=
  if hAxisNum ≥ axes_len ∨ vAxisNum ≥ axes_len then
    Nudges.indexError
  else
    match readAxis axes hAxisNum, readAxis axes vAxisNum with
    | some hValue, some vValue =>
      let nudgeH : Int :=
        if hValue < deadZone ∧ hValue > negInt32 deadZone then 0
        else Int.tdiv hValue 10000
      let nudgeV : Int :=
        if vValue < deadZone ∧ vValue > negInt32 deadZone then 0
        else Int.tdiv vValue 10000
      Nudges.values nudgeH nudgeV
    | _, _ => Nudges.outOfBoundsRead

/-- The command line built by
`sprintf(cmd, "xdotool mousemove_relative -- %d %d", nudgeH, nudgeV)`. -/
def mousemoveCmd (nudgeH nudgeV : Int) : String :=
  "xdotool mousemove_relative -- " ++ toString nudgeH ++ " " ++ toString nudgeV

/-- `handleStick` of `js2mouse.c`: the return value and the effects, or `none` when the
function reads outside `axes`. -/
def handleStick (axes : List Int) (axes_len hAxisNum vAxisNum deadZone : Int) :
    Option (Int × List Out) :=
  match stickNudges axes axes_len hAxisNum vAxisNum deadZone with
  | Nudges.indexError => some (-1, [])
  | Nudges.outOfBoundsRead => none
  | Nudges.values nudgeH nudgeV =>
    if 0 ≠ nudgeH ∨ 0 ≠ nudgeV then
      some (1, [Out.system (mousemoveCmd nudgeH nudgeV)])
    else
      some (0, [])

/-- `handleStick` of `js2mouse_v1.c`: as above, but a move returns 0 as well. -/
def V1.handleStick (axes : List Int) (axes_len hAxisNum vAxisNum deadZone : Int) :
    Option (Int × List Out) :=
  match stickNudges axes axes_len hAxisNum vAxisNum deadZone with
  | Nudges.indexError => some (-1, [])
  | Nudges.outOfBoundsRead => none
  | Nudges.values nudgeH nudgeV =>
    if 0 ≠ nudgeH ∨ 0 ≠ nudgeV then
      some (0, [Out.system (mousemoveCmd nudgeH nudgeV)])
    else
      some (0, [])

/-- The reference rule of the specification (DeadzoneFilter, `SCALE = 10000`): nudge 0 when
`|value| < deadzone`, otherwise `value / SCALE` truncated toward zero. -/
def computeNudge (value deadzone : Int) : Int :=
  if |value| < deadzone then 0 else Int.tdiv value 10000

/-! ## D-pad handlers -/

/-- `handleDpadH` of `js2mouse.c`: return value and effects. -/
def handleDpadH (value : Int) : Int × List Out :=
  if value > D_PAD_DEADZ then
    (0, [Out.print "right\n", Out.system "xdotool keydown 114"])
  else if value > -D_PAD_DEADZ then
    (-1, [Out.print "stop dpad horizontal\n", Out.system "xdotool keyup 114 keyup 113"])
  else
    (0, [Out.print "left\n", Out.system "xdotool keydown 113"])

/-- `handleDpadV` of `js2mouse.c`: return value and effects. -/
def handleDpadV (value : Int) : Int × List Out :=
  if value > D_PAD_DEADZ then
    (0, [Out.print "down\n", Out.system "xdotool keydown 116"])
  else if value > -D_PAD_DEADZ then
    (-1, [Out.print "stop dpad vertical\n", Out.system "xdotool keyup 116 keyup 111"])
  else
    (0, [Out.print "up\n", Out.system "xdotool keydown 111"])

/-- `handleDpadH` of `js2mouse_v1.c` (returns `void`). -/
def V1.handleDpadH (value : Int) : List Out :=
  if value > D_PAD_DEADZ then
    [Out.print "right\n", Out.system "xdotool keydown 114"]
  else if value > -D_PAD_DEADZ then
    [Out.print "stop dpad horizontal\n", Out.system "xdotool keyup 114 keyup 113"]
  else
    [Out.print "left\n", Out.system "xdotool keydown 113"]

/-- `handleDpadV` of `js2mouse_v1.c` (returns `void`). -/
def V1.handleDpadV (value : Int) : List Out :=
  if value > D_PAD_DEADZ then
    [Out.print "down\n", Out.system "xdotool keydown 116"]
  else if value > -D_PAD_DEADZ then
    [Out.print "stop dpad vertical\n", Out.system "xdotool keyup 116 keyup 111"]
  else
    [Out.print "up\n", Out.system "xdotool keydown 111"]

/-! ## Events and reads (`linux/joystick.h`) -/

/-- `JS_EVENT_BUTTON` of `linux/joystick.h`. -/
def JS_EVENT_BUTTON : Nat := 1
/-- `JS_EVENT_AXIS` of `linux/joystick.h`. -/
def JS_EVENT_AXIS : Nat := 2

/-- `struct js_event` of `linux/joystick.h`: `__u32 time; __s16 value; __u8 type;
__u8 number`. -/
structure JsEvent where
  time : Nat
  value : Int
  type : Nat
  number : Nat
  deriving DecidableEq, Repr

/-- The value of `sizeof(struct js_event)`. -/
def SIZEOF_JS_EVENT : Nat := 8

/-- One call `read(js, &event, sizeof(struct js_event))`: the value it returns, and the
record it stores in `event` when it returns the full size (otherwise `event` keeps its
previous content). A read on a non-blocking descriptor with no data pending, and a read
on a disconnected device, return -1. -/
structure ReadResult where
  ret : Int
  data : JsEvent
  deriving DecidableEq, Repr

/-- The content of the buffer `event` after a read. -/
def ReadResult.store (r : ReadResult) (event : JsEvent) : JsEvent :=
  if r.ret = (SIZEOF_JS_EVENT : Int) then r.data else event

/-- The return value of `read` converted to `size_t` (64 bits). -/
def ReadResult.numRead (r : ReadResult) : Nat :=
  (r.ret % 18446744073709551616).toNat

/-- The array write `axes[i] = v`: `none` when `i` is not an index of the array. -/
def writeAxis (axes : List Int) (i : Nat) (v : Int) : Option (List Int) :=
  if i < axes.length then some (axes.set i v) else none

/-! ## The button switch (same text in both files) -/

/-- The `switch(event.number)` of the button branch: its effects and the value of `quit`
after it. -/
def buttonSwitch (number : Nat) (quit : Bool) : List Out × Bool :=
  if number = A_BTN then
    ([Out.print "left click!\n", Out.system ("xdotool click " ++ toString CLICK_L)], quit)
  else if number = B_BTN then
    ([Out.print "right click!\n", Out.system ("xdotool click " ++ toString CLICK_R)], quit)
  else if number = X_BTN then
    ([Out.print "middle click!\n", Out.system ("xdotool click " ++ toString CLICK_M)], quit)
  else if number = RB_BTN then
    ([Out.print "scroll down!\n"], quit)
  else if number = LB_BTN then
    ([Out.print "scroll up!\n"], quit)
  else if number = XBOX_BTN then
    ([Out.print "quit!\n"], true)
  else
    ([Out.print ("Unhandled event number: " ++ toString number ++ "\n")], quit)

/-- The guard of the button branch: `JS_EVENT_BUTTON == event.type && true == event.value`. -/
def isButtonPress (event : JsEvent) : Bool :=
  decide (JS_EVENT_BUTTON = event.type) && decide ((1 : Int) = event.value)

/-! ## Argument handling (lines 90-140 of `js2mouse.c`, 94-138 of `js2mouse_v1.c`) -/

/-- The call `strcat(devicePath, src)` into the buffer `char devicePath[DEVICE_N_LEN]`:
`none` when the result and its terminator do not fit. -/
def strcatDevicePath (devicePath src : String) : Option String :=
  if devicePath.utf8ByteSize + src.utf8ByteSize + 1 ≤ DEVICE_N_LEN then
    some (devicePath ++ src)
  else none

/-- What argument handling leaves behind. -/
structure Args where
  devicePath : String
  lefty : Bool
  out : List Out
  deriving DecidableEq, Repr

/-- The checks of the arguments in `main` (lines 114-140 of `js2mouse.c`, 110-138 of
`js2mouse_v1.c`, the same text); `argv` is the whole argument vector (`argv[0]` is the
program name, `argc` its length). -/
def argumentChecks (argv : List String) : Option Args :=
  let DEV_DIR := "/dev/input/"
  if argv.length = 2 then
    if argv.getD 1 "" = "L" then
      some ⟨DEV_DIR, true, [Out.print "Running in left-handed mode. . .\n"]⟩
    else
      match strcatDevicePath DEV_DIR (argv.getD 1 "") with
      | none => none
      | some path =>
        some ⟨path, false,
          [Out.print ("Using device [" ++ argv.getD 1 "" ++
            "] to control mouse and keyboard inputs. . .\n")]⟩
  else if argv.length ≥ 3 ∧ argv.getD 2 "" = "L" then
    some ⟨DEV_DIR, true, [Out.print "Running in left-handed mode. . .\n"]⟩
  else
    match strcatDevicePath DEV_DIR "js0" with
    | none => none
    | some path =>
      some ⟨path, false,
        [Out.print "Using device js0 to control mouse and keyboard inputs. . .\n"]⟩

/-- Argument handling of `js2mouse.c` (lines 90-140): the `printf("moo\n")` of line 101
comes before the checks of the arguments. -/
def parseArgs (argv : List String) : Option Args :=
  match argumentChecks argv with
  | none => none
  | some a => some { a with out := Out.print "moo\n" :: a.out }

/-- Argument handling of `js2mouse_v1.c` (lines 94-138). -/
def V1.parseArgs (argv : List String) : Option Args :=
  argumentChecks argv

/-! ## The event loop of `js2mouse.c` -/

/-- The variables of `main` that the loop of `js2mouse.c` reads and writes. `axisCount` is
the length of `axes` (`axes = calloc(axisCount, sizeof(int))`). -/
structure LoopState where
  axes : List Int
  lefty : Bool
  timeSince : Int
  event : JsEvent
  quit : Bool
  deriving DecidableEq, Repr

/-- What the environment supplies during one iteration of the loop of `js2mouse.c`. -/
structure Poll where
  /-- The value of `time(NULL)` in the timeout check (line 186). -/
  now : Int
  /-- The value stored in `inC` by `getchar()` (line 192), if the prompt is shown. -/
  inC : Int
  /-- The value of `time(NULL)` at line 199. -/
  nowPrompt : Int
  /-- The value of `time(NULL)` at line 242 or 247. -/
  nowStick : Int
  /-- The value of `time(NULL)` at line 253. -/
  nowButton : Int
  /-- The value of `time(NULL)` at line 301 or 308. -/
  nowDpad : Int
  /-- Whether `access(devicePath, O_RDONLY) != -1` (line 319). -/
  accessible : Bool
  /-- The read of line 322, if it is made. -/
  read : ReadResult
  deriving DecidableEq, Repr

/-- The character `y`. -/
def CHAR_Y : Int := 121

/-- Lines 185-200: the timeout check. `none` is the `break` of line 196. -/
def timeoutCheck (s : LoopState) (w : Poll) : Option LoopState × List Out :=
  if w.now - s.timeSince > TIME_OUT then
    let out := [Out.print ("It has been " ++ toString TIME_OUT ++
        " seconds since last input.\n"),
      Out.print "Do you want to quit (y/n): "]
    if CHAR_Y = w.inC then
      (none, out ++ [Out.print "Closing. . . .\n"])
    else
      (some { s with timeSince := w.nowPrompt }, out)
  else
    (some s, [])

/-- Lines 217-248: the axis store and the stick handling, done for every event. `none` when
the store or `handleStick` goes outside `axes`. -/
def stickBlock (s : LoopState) (w : Poll) : Option (LoopState × List Out) :=
  match writeAxis s.axes s.event.number s.event.value with
  | none => none
  | some axes =>
    let hStick := if s.lefty then L_STICK_H else R_STICK_H
    let vStick := if s.lefty then L_STICK_V else R_STICK_V
    let r :=
      if s.lefty then handleStick axes axes.length L_STICK_H L_STICK_V L_STICK_DEADZ
      else handleStick axes axes.length R_STICK_H R_STICK_V R_STICK_DEADZ
    match r with
    | none => none
    | some (success, out) =>
      if -1 = s.timeSince then
        some ({ s with axes := axes, timeSince := w.nowStick },
          out ++ [Out.print "Error: Tried to move an axis the device does not have\n",
            Out.print ("\tAxes to move: " ++ toString hStick ++ ", " ++ toString vStick ++
              "\n\tAxis count: " ++ toString axes.length ++ "\n")])
      else if 1 = success then
        some ({ s with axes := axes, timeSince := w.nowStick }, out ++ [Out.print "moo\n"])
      else
        some ({ s with axes := axes }, out)

/-- Lines 250-317: the button branch and the d-pad branch. -/
def dispatchBlock (s : LoopState) (w : Poll) : LoopState × List Out :=
  if isButtonPress s.event then
    let r := buttonSwitch s.event.number s.quit
    ({ s with timeSince := w.nowButton, quit := r.2 }, r.1)
  else if JS_EVENT_AXIS = s.event.type then
    if s.event.number = D_PAD_H then
      let r := handleDpadH s.event.value
      if 0 = r.1 then ({ s with timeSince := w.nowDpad }, r.2 ++ [Out.print "moo\n"])
      else (s, r.2)
    else if s.event.number = D_PAD_V then
      let r := handleDpadV s.event.value
      if 0 = r.1 then ({ s with timeSince := w.nowDpad }, r.2 ++ [Out.print "moo\n"])
      else (s, r.2)
    else (s, [])
  else (s, [])

/-- Lines 319-323: the guarded read; its return value is not kept. -/
def readBlock (s : LoopState) (w : Poll) : LoopState :=
  if w.accessible then { s with event := w.read.store s.event } else s

/-- How one iteration of the loop body ends. -/
inductive Step where
  /-- The end of the body was reached with these variables. -/
  | next (s : LoopState)
  /-- The `break` of line 196. -/
  | closing
  /-- An access outside `axes`. -/
  | fault
  deriving DecidableEq, Repr

/-- Lines 217-323: what an iteration does with the event once the timeout check is
passed. -/
def processEvent (s : LoopState) (w : Poll) : Step × List Out :=
  match stickBlock s w with
  | none => (Step.fault, [])
  | some (s2, out1) =>
    let r := dispatchBlock s2 w
    (Step.next (readBlock r.1 w), out1 ++ r.2)

/-- One iteration of the body of `while(!quit)` (lines 185-323). -/
def iteration (s : LoopState) (w : Poll) : Step × List Out :=
  match timeoutCheck s w with
  | (none, out0) => (Step.closing, out0)
  | (some s1, out0) =>
    let r := processEvent s1 w
    (r.1, out0 ++ r.2)

/-- Where a run of the program stands. -/
inductive Status (σ : Type) where
  /-- Still in the loop, with these variables: the supplied input is used up. -/
  | running (s : σ)
  /-- The process returned with this exit status. -/
  | exited (code : Int)
  /-- An access outside `axes`. -/
  | fault
  deriving DecidableEq, Repr

/-- The loop `while(!quit)` of `js2mouse.c` and the cleanup after it, run on the
iterations the environment supplies: the final status and all effects. -/
def mainLoop (s : LoopState) : List Poll → Status LoopState × List Out
  | [] => if s.quit then (Status.exited 0, []) else (Status.running s, [])
  | w :: ws =>
    if s.quit then (Status.exited 0, [])
    else
      match iteration s w with
      | (Step.closing, out) => (Status.exited 0, out)
      | (Step.fault, out) => (Status.fault, out)
      | (Step.next s1, out) =>
        let r := mainLoop s1 ws
        (r.1, out ++ r.2)

/-! ## The event loop of `js2mouse_v1.c` -/

/-- The variables of `main` that the loop of `js2mouse_v1.c` reads and writes. -/
structure V1.LoopState where
  axes : List Int
  lefty : Bool
  event : JsEvent
  numRead : Nat
  quit : Bool
  deriving DecidableEq, Repr

/-- The report made when `handleStick` returns -1 (lines 283-287 and 297-301). -/
def V1.stickReport (success : Int) (hStick vStick axisCount : Nat) : List Out :=
  if -1 = success then
    [Out.print "Error: Tried to move an axis the device does not have\n",
      Out.print ("\tAxes to move: " ++ toString hStick ++ ", " ++ toString vStick ++
        "\n\tAxis count: " ++ toString axisCount ++ "\n")]
  else []

/-- Lines 226-315 of `js2mouse_v1.c`: the button branch and the axis branch. `none` when the
axis store or `handleStick` goes outside `axes`. -/
def V1.dispatchBlock (s : V1.LoopState) : Option (V1.LoopState × List Out) :=
  if isButtonPress s.event then
    let r := buttonSwitch s.event.number s.quit
    some ({ s with quit := r.2 }, r.1)
  else if JS_EVENT_AXIS = s.event.type then
    match writeAxis s.axes s.event.number s.event.value with
    | none => none
    | some axes =>
      let s1 := { s with axes := axes }
      if s.event.number = L_STICK_H ∨ s.event.number = L_STICK_V then
        if s.lefty then
          match V1.handleStick axes axes.length L_STICK_H L_STICK_V L_STICK_DEADZ with
          | none => none
          | some (success, out) =>
            some (s1, out ++ V1.stickReport success L_STICK_H L_STICK_V axes.length)
        else some (s1, [])
      else if s.event.number = R_STICK_H ∨ s.event.number = R_STICK_V then
        if !s.lefty then
          match V1.handleStick axes axes.length R_STICK_H R_STICK_V R_STICK_DEADZ with
          | none => none
          | some (success, out) =>
            some (s1, out ++ V1.stickReport success R_STICK_H R_STICK_V axes.length)
        else some (s1, [])
      else if s.event.number = D_PAD_H then
        some (s1, V1.handleDpadH s.event.value)
      else if s.event.number = D_PAD_V then
        some (s1, V1.handleDpadV s.event.value)
      else
        some (s1, [Out.print ("Unhandled event number: " ++ toString s.event.number ++ "\n")])
  else some (s, [])

/-- One iteration of the loop body of `js2mouse_v1.c` (lines 181-322), ending with the read
of the next event. `none` on an access outside `axes`. -/
def V1.iteration (s : V1.LoopState) (r : ReadResult) : Option V1.LoopState × List Out :=
  match V1.dispatchBlock s with
  | none => (none, [])
  | some (s1, out) =>
    (some { s1 with event := r.store s1.event, numRead := r.numRead },
      out ++ [Out.print ("numRead: " ++ toString r.numRead ++ "\n")])

/-- Lines 324-334 of `js2mouse_v1.c`: the disconnect notice; the process then returns 0. -/
def V1.epilogue (devicePath : String) (s : V1.LoopState) : List Out :=
  if SIZEOF_JS_EVENT ≠ s.numRead then
    [Out.print ("Device " ++ devicePath ++ " disconnected.\nClosing. . .\n")]
  else []

/-- The loop `while(numRead == sizeof(struct js_event) && !quit)` of `js2mouse_v1.c` and the
code after it, run on the reads the environment supplies. When the reads are used up inside
the loop the program is blocked in `read`. -/
def V1.mainLoop (devicePath : String) (s : V1.LoopState) :
    List ReadResult → Status V1.LoopState × List Out
  | [] =>
    if s.numRead = SIZEOF_JS_EVENT ∧ s.quit = false then (Status.running s, [])
    else (Status.exited 0, V1.epilogue devicePath s)
  | r :: rs =>
    if s.numRead = SIZEOF_JS_EVENT ∧ s.quit = false then
      match V1.iteration s r with
      | (none, out) => (Status.fault, out)
      | (some s1, out) =>
        let t := V1.mainLoop devicePath s1 rs
        (t.1, out ++ t.2)
    else (Status.exited 0, V1.epilogue devicePath s)

/-! ## Reference definitions taken from the specification -/

/-- The direction state of one d-pad axis (specification, section 4.4). -/
inductive DpadZone where
  | negative
  | idle
  | positive
  deriving DecidableEq, Repr

/-- The zone of a raw d-pad value against `D_PAD_DEADZ` as the specification gives it:
above the deadzone Positive, in `-deadzone < value <= deadzone` Idle, at or below
`-deadzone` Negative. -/
def dpadZone (value : Int) : DpadZone :=
  if value > D_PAD_DEADZ then DpadZone.positive
  else if -D_PAD_DEADZ < value ∧ value ≤ D_PAD_DEADZ then DpadZone.idle
  else DpadZone.negative

/-- The injector command of a zone of the horizontal d-pad axis (right = 114, left = 113). -/
def zoneCommandH : DpadZone → String
  | DpadZone.positive => "xdotool keydown 114"
  | DpadZone.idle => "xdotool keyup 114 keyup 113"
  | DpadZone.negative => "xdotool keydown 113"

/-- The injector command of a zone of the vertical d-pad axis (down = 116, up = 111). -/
def zoneCommandV : DpadZone → String
  | DpadZone.positive => "xdotool keydown 116"
  | DpadZone.idle => "xdotool keyup 116 keyup 111"
  | DpadZone.negative => "xdotool keydown 111"

/-- The fixed mapping of the specification's ButtonDispatcher for a press of a button other
than LB and RB: the injector commands, and whether quit is requested. A is left-click
(`click 1`), B right-click (`click 3`), X middle-click (`click 2`), Home/Xbox requests quit,
every other button is a no-op. -/
def specButtonMapping (number : Nat) : List String × Bool :=
  if number = A_BTN then (["xdotool click 1"], false)
  else if number = B_BTN then (["xdotool click 3"], false)
  else if number = X_BTN then (["xdotool click 2"], false)
  else if number = XBOX_BTN then ([], true)
  else ([], false)

/-- A stick handler with no deadzone test, the comparison object for the redundancy of the
test: the bounds check, the reads and the final `if` of `handleStick` in `js2mouse.c`, with
both nudges computed as `value / 10000` unconditionally. -/
def handleStickNoDeadzone (axes : List Int) (axes_len hAxisNum vAxisNum : Int) :
    Option (Int × List Out) :=
  if hAxisNum ≥ axes_len ∨ vAxisNum ≥ axes_len then some (-1, [])
  else
    match readAxis axes hAxisNum, readAxis axes vAxisNum with
    | some hValue, some vValue =>
      if 0 ≠ Int.tdiv hValue 10000 ∨ 0 ≠ Int.tdiv vValue 10000 then
        some (1, [Out.system (mousemoveCmd (Int.tdiv hValue 10000) (Int.tdiv vValue 10000))])
      else
        some (0, [])
    | _, _ => none

/-! ## Stick handling: nudges, bounds and the move command -/

/-- Away from `INT_MIN`, the wrapped negation is the negation. -/
theorem negInt32_eq_neg (x : Int) (hlo : -2147483648 < x) (hhi : x ≤ 2147483647) :
    negInt32 x = -x := by
  unfold negInt32 wrapInt32
  omega

/-- The deadzone test of `handleStick` is the test `|value| < deadZone`. -/
theorem deadzone_test_iff (value deadZone : Int) (hD : isInt32 deadZone) :
    (value < deadZone ∧ value > negInt32 deadZone) ↔ |value| < deadZone := by
  obtain ⟨hlo, hhi⟩ := hD
  rw [abs_lt]
  by_cases hmin : deadZone = -2147483648
  · subst hmin
    have hneg : negInt32 (-2147483648) = -2147483648 := by decide
    rw [hneg]
    constructor <;> intro h <;> omega
  · have hlo2 : -2147483648 < deadZone := lt_of_le_of_ne hlo (Ne.symm hmin)
    rw [negInt32_eq_neg deadZone hlo2 hhi]
    constructor <;> intro h <;> exact ⟨h.2, h.1⟩

/-- An in-bounds read yields the stored element. -/
theorem readAxis_of_lt (axes : List Int) (i : Nat) (h : i < axes.length) :
    readAxis axes (i : Int) = some axes[i] := by
  unfold readAxis
  have h1 : (0 : Int) ≤ (i : Int) ∧ (i : Int) < (axes.length : Int) :=
    ⟨Int.ofNat_nonneg i, Int.ofNat_lt.mpr h⟩
  rw [if_pos h1]
  simp [List.getElem?_eq_getElem h]

/-- For in-bounds indices `stickNudges` yields the two nudges computed by the source rule. -/
theorem stickNudges_of_lt (axes : List Int) (hAxisNum vAxisNum : Nat) (deadZone : Int)
    (hH : hAxisNum < axes.length) (hV : vAxisNum < axes.length) :
    stickNudges axes axes.length hAxisNum vAxisNum deadZone
      = Nudges.values
          (if axes[hAxisNum] < deadZone ∧ axes[hAxisNum] > negInt32 deadZone then 0
            else Int.tdiv axes[hAxisNum] 10000)
          (if axes[vAxisNum] < deadZone ∧ axes[vAxisNum] > negInt32 deadZone then 0
            else Int.tdiv axes[vAxisNum] 10000) := by
  unfold stickNudges
  have hc : ¬ ((hAxisNum : Int) ≥ (axes.length : Int) ∨ (vAxisNum : Int) ≥ (axes.length : Int)) := by
    omega
  rw [if_neg hc, readAxis_of_lt axes hAxisNum hH, readAxis_of_lt axes vAxisNum hV]

/-- C1: in `handleStick` (the text shared by both variants), for in-bounds axis indices, every
`int` deadzone and every stored axis values, each of the two nudges equals the reference rule
`computeNudge`: 0 when `|v| < deadZone`, otherwise `v / 10000` truncated toward zero; the
horizontal and the vertical nudge are computed independently by that same rule. -/
theorem stickNudges_eq_computeNudge (axes : List Int) (hAxisNum vAxisNum : Nat)
    (deadZone : Int) (hH : hAxisNum < axes.length) (hV : vAxisNum < axes.length)
    (hD : isInt32 deadZone) :
    stickNudges axes axes.length hAxisNum vAxisNum deadZone
      = Nudges.values (computeNudge axes[hAxisNum] deadZone)
          (computeNudge axes[vAxisNum] deadZone) := by
  rw [stickNudges_of_lt axes hAxisNum vAxisNum deadZone hH hV]
  unfold computeNudge
  simp only [deadzone_test_iff _ deadZone hD]

/-- C1, at the values of the specification: with deadzone 1000 the stored values 15000,
-15000 and 5000 give the nudges 1, -1 and 0. -/
theorem stickNudges_eq_computeNudge_witness :
    stickNudges [15000, -15000, 5000] 3 0 1 1000 = Nudges.values 1 (-1)
      ∧ stickNudges [15000, -15000, 5000] 3 2 2 1000 = Nudges.values 0 0 :=
  ⟨stickNudges_eq_computeNudge [15000, -15000, 5000] 0 1 1000 (by decide) (by decide)
      (by decide),
    stickNudges_eq_computeNudge [15000, -15000, 5000] 2 2 1000 (by decide) (by decide)
      (by decide)⟩

/-- When an index is at or above `axes_len`, `handleStick` (both variants) returns -1 without
reading the array and without any effect; so for the length 4 and `hAxisNum = 5`. -/
theorem handleStick_index_error (axes : List Int) (axes_len hAxisNum vAxisNum deadZone : Int)
    (h : hAxisNum ≥ axes_len ∨ vAxisNum ≥ axes_len) :
    stickNudges axes axes_len hAxisNum vAxisNum deadZone = Nudges.indexError
      ∧ handleStick axes axes_len hAxisNum vAxisNum deadZone = some (-1, [])
      ∧ V1.handleStick axes axes_len hAxisNum vAxisNum deadZone = some (-1, []) := by
  have h1 : stickNudges axes axes_len hAxisNum vAxisNum deadZone = Nudges.indexError := by
    unfold stickNudges
    rw [if_pos h]
  refine ⟨h1, ?_, ?_⟩
  · unfold handleStick
    rw [h1]
  · unfold V1.handleStick
    rw [h1]

/-- C2: a negative index passes the bounds check of `handleStick`, which tests only
`hAxisNum >= axes_len || vAxisNum >= axes_len`: on an array of length 4 with `hAxisNum = -1`
(or `vAxisNum = -1`) the function does not return -1 but reads `axes[-1]`, outside the
array, in both variants. -/
theorem handleStick_negative_index_reads_outside :
    stickNudges [0, 0, 0, 0] 4 (-1) 0 1000 = Nudges.outOfBoundsRead
      ∧ handleStick [0, 0, 0, 0] 4 (-1) 0 1000 = none
      ∧ handleStick [0, 0, 0, 0] 4 0 (-1) 1000 = none
      ∧ V1.handleStick [0, 0, 0, 0] 4 (-1) 0 1000 = none
      ∧ handleStick [0, 0, 0, 0] 4 (-1) 0 1000 ≠ some (-1, []) := by
  decide

/-- What both variants of `handleStick` do once the nudges are known. -/
theorem handleStick_of_values (axes : List Int) (axes_len hAxisNum vAxisNum deadZone : Int)
    (a b : Int)
    (hN : stickNudges axes axes_len hAxisNum vAxisNum deadZone = Nudges.values a b) :
    handleStick axes axes_len hAxisNum vAxisNum deadZone
        = some (if (a, b) ≠ (0, 0) then (1, [Out.system (mousemoveCmd a b)]) else (0, []))
      ∧ V1.handleStick axes axes_len hAxisNum vAxisNum deadZone
        = some (0, if (a, b) ≠ (0, 0) then [Out.system (mousemoveCmd a b)] else []) := by
  unfold handleStick V1.handleStick
  rw [hN]
  by_cases ha : a = 0
  · by_cases hb : b = 0
    · simp [ha, hb]
    · have hb2 : ¬ (0 = b) := fun h => hb h.symm
      simp [ha, hb, hb2, Prod.ext_iff]
  · have ha2 : ¬ (0 = a) := fun h => ha h.symm
    simp [ha, ha2, Prod.ext_iff]

/-- C3: for an in-bounds call of `handleStick` with computed nudges `(nudgeH, nudgeV)`:
when the pair is not `(0, 0)` the only effect is the one injector command
`xdotool mousemove_relative -- nudgeH nudgeV`, and when it is `(0, 0)` there is no effect at
all; `js2mouse.c` returns 1 in the first case and 0 in the second, `js2mouse_v1.c` returns 0
in both. -/
theorem handleStick_move_iff_nonzero (axes : List Int) (hAxisNum vAxisNum : Nat)
    (deadZone : Int) (hH : hAxisNum < axes.length) (hV : vAxisNum < axes.length) :
    ∃ nudgeH nudgeV : Int,
      stickNudges axes axes.length hAxisNum vAxisNum deadZone = Nudges.values nudgeH nudgeV
      ∧ handleStick axes axes.length hAxisNum vAxisNum deadZone
          = some (if (nudgeH, nudgeV) ≠ (0, 0)
              then (1, [Out.system (mousemoveCmd nudgeH nudgeV)]) else (0, []))
      ∧ V1.handleStick axes axes.length hAxisNum vAxisNum deadZone
          = some (0, if (nudgeH, nudgeV) ≠ (0, 0)
              then [Out.system (mousemoveCmd nudgeH nudgeV)] else []) := by
  have hN := stickNudges_of_lt axes hAxisNum vAxisNum deadZone hH hV
  exact ⟨_, _, hN, handleStick_of_values axes _ _ _ deadZone _ _ hN⟩

/-- C3, on the stored values 15000 and -15000 with deadzone 1000: one command
`xdotool mousemove_relative -- 1 -1` and return value 1. -/
theorem handleStick_move_iff_nonzero_witness :
    (0 < [(15000 : Int), -15000].length ∧ 1 < [(15000 : Int), -15000].length)
      ∧ (∃ nudgeH nudgeV : Int,
        stickNudges [15000, -15000] 2 0 1 1000 = Nudges.values nudgeH nudgeV
        ∧ handleStick [15000, -15000] 2 0 1 1000
            = some (if (nudgeH, nudgeV) ≠ (0, 0)
                then (1, [Out.system (mousemoveCmd nudgeH nudgeV)]) else (0, []))
        ∧ V1.handleStick [15000, -15000] 2 0 1 1000
            = some (0, if (nudgeH, nudgeV) ≠ (0, 0)
                then [Out.system (mousemoveCmd nudgeH nudgeV)] else []))
      ∧ handleStick [15000, -15000] 2 0 1 1000
          = some (1, [Out.system "xdotool mousemove_relative -- 1 -1"])
      ∧ handleStick [5000, -5000] 2 0 1 1000 = some (0, []) :=
  ⟨⟨by decide, by decide⟩,
    handleStick_move_iff_nonzero [15000, -15000] 0 1 1000 (by decide) (by decide),
    by decide, by decide⟩

/-- C4: `handleDpadH` and `handleDpadV` put every value in exactly one of three zones
against `D_PAD_DEADZ = 1000` and hand the injector the one command of that zone: above 1000
key-down of right (114) resp. down (116); in `-1000 < value <= 1000` key-up of both keys of
the axis; at or below -1000 key-down of left (113) resp. up (111). So 1000 is idle and -1000
is negative. The handlers of `js2mouse_v1.c` emit the same commands. -/
theorem handleDpad_zone_command (value : Int) :
    ((value > 1000
        ∧ commands (handleDpadH value).2 = ["xdotool keydown " ++ toString ARROW_R]
        ∧ commands (handleDpadV value).2 = ["xdotool keydown " ++ toString ARROW_D])
      ∨ (-1000 < value ∧ value ≤ 1000
        ∧ commands (handleDpadH value).2
            = ["xdotool keyup " ++ toString ARROW_R ++ " keyup " ++ toString ARROW_L]
        ∧ commands (handleDpadV value).2
            = ["xdotool keyup " ++ toString ARROW_D ++ " keyup " ++ toString ARROW_U])
      ∨ (value ≤ -1000
        ∧ commands (handleDpadH value).2 = ["xdotool keydown " ++ toString ARROW_L]
        ∧ commands (handleDpadV value).2 = ["xdotool keydown " ++ toString ARROW_U]))
      ∧ commands (V1.handleDpadH value) = commands (handleDpadH value).2
      ∧ commands (V1.handleDpadV value) = commands (handleDpadV value).2
      ∧ commands (handleDpadH 1000).2 = ["xdotool keyup 114 keyup 113"]
      ∧ commands (handleDpadH (-1000)).2 = ["xdotool keydown 113"]
      ∧ commands (handleDpadV 1000).2 = ["xdotool keyup 116 keyup 111"]
      ∧ commands (handleDpadV (-1000)).2 = ["xdotool keydown 111"] := by
  have e1 : "xdotool keydown " ++ toString ARROW_R = "xdotool keydown 114" := by decide
  have e2 : "xdotool keydown " ++ toString ARROW_D = "xdotool keydown 116" := by decide
  have e3 : "xdotool keydown " ++ toString ARROW_L = "xdotool keydown 113" := by decide
  have e4 : "xdotool keydown " ++ toString ARROW_U = "xdotool keydown 111" := by decide
  have e5 : "xdotool keyup " ++ toString ARROW_R ++ " keyup " ++ toString ARROW_L
      = "xdotool keyup 114 keyup 113" := by decide
  have e6 : "xdotool keyup " ++ toString ARROW_D ++ " keyup " ++ toString ARROW_U
      = "xdotool keyup 116 keyup 111" := by decide
  rw [e1, e2, e3, e4, e5, e6]
  refine ⟨?_, ?_, ?_, by decide, by decide, by decide, by decide⟩
  · unfold handleDpadH handleDpadV D_PAD_DEADZ
    by_cases h1 : value > 1000
    · left
      refine ⟨h1, ?_, ?_⟩ <;> simp [h1, commands]
    · by_cases h2 : value > -1000
      · right; left
        refine ⟨h2, by omega, ?_, ?_⟩ <;> simp [h1, h2, commands]
      · right; right
        refine ⟨by omega, ?_, ?_⟩ <;> simp [h1, h2, commands]
  · unfold handleDpadH V1.handleDpadH
    split_ifs <;> rfl
  · unfold handleDpadV V1.handleDpadV
    split_ifs <;> rfl

/-! ## D-pad: every sample emits -/

/-- C5, refuted as stated: the d-pad handlers keep no previous state. On the samples
`[0, 2000, 2000, 0, -2000]` the third sample lies in the same zone as the second and still
emits key-down-right, at the handlers and in the loops of both variants; the emitted
sequence is not the one with nothing in third place. -/
theorem dpad_repeated_sample_emits_again :
    dpadZone 2000 = DpadZone.positive
      ∧ [0, 2000, 2000, 0, -2000].map (fun v => commands (handleDpadH v).2)
        = [["xdotool keyup 114 keyup 113"], ["xdotool keydown 114"], ["xdotool keydown 114"],
            ["xdotool keyup 114 keyup 113"], ["xdotool keydown 113"]]
      ∧ [0, 2000, 2000, 0, -2000].map (fun v => commands (handleDpadH v).2)
        ≠ [["xdotool keyup 114 keyup 113"], ["xdotool keydown 114"], [],
            ["xdotool keyup 114 keyup 113"], ["xdotool keydown 113"]]
      ∧ commands (V1.mainLoop "/dev/input/js0"
          ⟨[0, 0, 0, 0, 0, 0, 0, 0], false, ⟨0, 0, 2, 6⟩, 8, false⟩
          [⟨8, ⟨1, 2000, 2, 6⟩⟩, ⟨8, ⟨2, 2000, 2, 6⟩⟩, ⟨8, ⟨3, 0, 2, 6⟩⟩,
            ⟨8, ⟨4, -2000, 2, 6⟩⟩, ⟨-1, ⟨0, 0, 0, 0⟩⟩]).2
        = ["xdotool keyup 114 keyup 113", "xdotool keydown 114", "xdotool keydown 114",
            "xdotool keyup 114 keyup 113", "xdotool keydown 113"]
      ∧ commands (mainLoop ⟨[0, 0, 0, 0, 0, 0, 0, 0], false, 0, ⟨0, 0, 2, 6⟩, false⟩
          [⟨0, 0, 0, 0, 0, 0, true, ⟨8, ⟨1, 2000, 2, 6⟩⟩⟩,
            ⟨0, 0, 0, 0, 0, 0, true, ⟨8, ⟨2, 2000, 2, 6⟩⟩⟩,
            ⟨0, 0, 0, 0, 0, 0, true, ⟨8, ⟨3, 0, 2, 6⟩⟩⟩,
            ⟨0, 0, 0, 0, 0, 0, true, ⟨8, ⟨4, -2000, 2, 6⟩⟩⟩,
            ⟨0, 0, 0, 0, 0, 0, true, ⟨8, ⟨5, 1, 1, 8⟩⟩⟩]).2
        = ["xdotool keyup 114 keyup 113", "xdotool keydown 114", "xdotool keydown 114",
            "xdotool keyup 114 keyup 113", "xdotool keydown 113"] := by
  decide

/-- The command of `handleDpadH` is the command of the zone of its argument. -/
theorem handleDpadH_commands (value : Int) :
    commands (handleDpadH value).2 = [zoneCommandH (dpadZone value)]
      ∧ commands (V1.handleDpadH value) = [zoneCommandH (dpadZone value)] := by
  unfold handleDpadH V1.handleDpadH dpadZone D_PAD_DEADZ
  by_cases h1 : value > 1000
  · simp [h1, commands, zoneCommandH]
  · by_cases h2 : value > -1000
    · have h3 : -1000 < value ∧ value ≤ 1000 := ⟨h2, by omega⟩
      simp [h1, h2, h3, commands, zoneCommandH]
    · have h3 : ¬ (-1000 < value ∧ value ≤ 1000) := fun h => h2 h.1
      simp [h1, h2, h3, commands, zoneCommandH]

/-- The command of `handleDpadV` is the command of the zone of its argument. -/
theorem handleDpadV_commands (value : Int) :
    commands (handleDpadV value).2 = [zoneCommandV (dpadZone value)]
      ∧ commands (V1.handleDpadV value) = [zoneCommandV (dpadZone value)] := by
  unfold handleDpadV V1.handleDpadV dpadZone D_PAD_DEADZ
  by_cases h1 : value > 1000
  · simp [h1, commands, zoneCommandV]
  · by_cases h2 : value > -1000
    · have h3 : -1000 < value ∧ value ≤ 1000 := ⟨h2, by omega⟩
      simp [h1, h2, h3, commands, zoneCommandV]
    · have h3 : ¬ (-1000 < value ∧ value ≤ 1000) := fun h => h2 h.1
      simp [h1, h2, h3, commands, zoneCommandV]

/-- C5, amended: the d-pad handlers are level-triggered. For every sequence of raw values
fed to the horizontal or the vertical handler (either variant), every sample emits exactly
one command, the command of the zone its own value lies in, whatever the previous sample
was; `[0, 2000, 2000, 0, -2000]` gives key-up-both, key-down-right, key-down-right,
key-up-both, key-down-left. -/
theorem dpad_emits_on_every_sample (samples : List Int) :
    samples.map (fun v => commands (handleDpadH v).2)
        = samples.map (fun v => [zoneCommandH (dpadZone v)])
      ∧ samples.map (fun v => commands (handleDpadV v).2)
        = samples.map (fun v => [zoneCommandV (dpadZone v)])
      ∧ samples.map (fun v => commands (V1.handleDpadH v))
        = samples.map (fun v => [zoneCommandH (dpadZone v)])
      ∧ samples.map (fun v => commands (V1.handleDpadV v))
        = samples.map (fun v => [zoneCommandV (dpadZone v)])
      ∧ [0, 2000, 2000, 0, -2000].map (fun v => zoneCommandH (dpadZone v))
        = ["xdotool keyup 114 keyup 113", "xdotool keydown 114", "xdotool keydown 114",
            "xdotool keyup 114 keyup 113", "xdotool keydown 113"] := by
  refine ⟨?_, ?_, ?_, ?_, by decide⟩
  · exact List.map_congr_left (fun v _ => (handleDpadH_commands v).1)
  · exact List.map_congr_left (fun v _ => (handleDpadV_commands v).1)
  · exact List.map_congr_left (fun v _ => (handleDpadH_commands v).2)
  · exact List.map_congr_left (fun v _ => (handleDpadV_commands v).2)

/-! ## Buttons -/

/-- The commands and the quit flag of the button switch, for a button other than LB and RB,
are those of the fixed mapping. -/
theorem buttonSwitch_eq_spec (number : Nat) (quit : Bool)
    (hLB : number ≠ LB_BTN) (hRB : number ≠ RB_BTN) :
    commands (buttonSwitch number quit).1 = (specButtonMapping number).1
      ∧ (buttonSwitch number quit).2 = (quit || (specButtonMapping number).2) := by
  by_cases hA : number = A_BTN
  · subst hA
    cases quit <;> decide
  · by_cases hB : number = B_BTN
    · subst hB
      cases quit <;> decide
    · by_cases hX : number = X_BTN
      · subst hX
        cases quit <;> decide
      · by_cases hQ : number = XBOX_BTN
        · subst hQ
          cases quit <;> decide
        · unfold buttonSwitch specButtonMapping
          simp [hA, hB, hX, hLB, hRB, hQ, commands]

/-- C6: the button branch of the event loop of both variants implements the fixed mapping.
For a button event whose index is not LB or RB, a press (value 1) emits exactly the commands
of the mapping (`click 1` for A, `click 3` for B, `click 2` for X, none for Home/Xbox and for
every other index) and sets quit exactly for Home/Xbox; a release (value 0) of any button
emits no command and leaves quit as it was. -/
theorem button_branch_mapping (s : LoopState) (w : Poll) (t : V1.LoopState)
    (hT : s.event.type = JS_EVENT_BUTTON) (hE : t.event = s.event) :
    (s.event.value = 1 → s.event.number ≠ LB_BTN → s.event.number ≠ RB_BTN →
        commands (dispatchBlock s w).2 = (specButtonMapping s.event.number).1
        ∧ (dispatchBlock s w).1.quit = (s.quit || (specButtonMapping s.event.number).2)
        ∧ (V1.dispatchBlock t).map (fun r => (commands r.2, r.1.quit))
            = some ((specButtonMapping s.event.number).1,
                (t.quit || (specButtonMapping s.event.number).2)))
      ∧ (s.event.value = 0 →
        commands (dispatchBlock s w).2 = [] ∧ (dispatchBlock s w).1.quit = s.quit
        ∧ V1.dispatchBlock t = some (t, []))
      ∧ specButtonMapping A_BTN = (["xdotool click 1"], false)
      ∧ specButtonMapping B_BTN = (["xdotool click 3"], false)
      ∧ specButtonMapping X_BTN = (["xdotool click 2"], false)
      ∧ specButtonMapping XBOX_BTN = ([], true)
      ∧ specButtonMapping Y_BTN = ([], false) := by
  refine ⟨?_, ?_, by decide, by decide, by decide, by decide, by decide⟩
  · intro hV hLB hRB
    have hP : isButtonPress s.event = true := by
      unfold isButtonPress
      simp [hT, hV]
    have hP2 : isButtonPress t.event = true := by rw [hE]; exact hP
    obtain ⟨hc, hq⟩ := buttonSwitch_eq_spec s.event.number s.quit hLB hRB
    obtain ⟨hc2, hq2⟩ := buttonSwitch_eq_spec s.event.number t.quit hLB hRB
    refine ⟨?_, ?_, ?_⟩
    · unfold dispatchBlock
      rw [if_pos hP]
      exact hc
    · unfold dispatchBlock
      rw [if_pos hP]
      exact hq
    · unfold V1.dispatchBlock
      rw [if_pos hP2, hE]
      simp only [Option.map_some']
      rw [hc2, hq2]
  · intro hV
    have hP : isButtonPress s.event = false := by
      unfold isButtonPress
      simp [hV]
    have hP2 : isButtonPress t.event = false := by rw [hE]; exact hP
    have hA : ¬ (JS_EVENT_AXIS = s.event.type) := by
      rw [hT]
      decide
    have hA2 : ¬ (JS_EVENT_AXIS = t.event.type) := by rw [hE]; exact hA
    refine ⟨?_, ?_, ?_⟩
    · unfold dispatchBlock
      simp [hP, hA, commands]
    · unfold dispatchBlock
      simp [hP, hA]
    · unfold V1.dispatchBlock
      simp [hP2, hA2]

/-- C6, on a press and a release of A: the press emits exactly `xdotool click 1` in both
variants and does not request quit, the release emits nothing. -/
theorem button_branch_mapping_witness :
    commands (dispatchBlock ⟨[0, 0, 0, 0, 0, 0, 0, 0], false, 0, ⟨0, 1, 1, 0⟩, false⟩
        ⟨0, 0, 0, 0, 0, 0, true, ⟨-1, ⟨0, 0, 0, 0⟩⟩⟩).2 = ["xdotool click 1"]
      ∧ commands (dispatchBlock ⟨[0, 0, 0, 0, 0, 0, 0, 0], false, 0, ⟨0, 0, 1, 0⟩, false⟩
        ⟨0, 0, 0, 0, 0, 0, true, ⟨-1, ⟨0, 0, 0, 0⟩⟩⟩).2 = [] :=
  ⟨((button_branch_mapping ⟨[0, 0, 0, 0, 0, 0, 0, 0], false, 0, ⟨0, 1, 1, 0⟩, false⟩
        ⟨0, 0, 0, 0, 0, 0, true, ⟨-1, ⟨0, 0, 0, 0⟩⟩⟩
        ⟨[0, 0, 0, 0, 0, 0, 0, 0], false, ⟨0, 1, 1, 0⟩, 8, false⟩ (by decide) (by decide)).1
        (by decide) (by decide) (by decide)).1,
    ((button_branch_mapping ⟨[0, 0, 0, 0, 0, 0, 0, 0], false, 0, ⟨0, 0, 1, 0⟩, false⟩
        ⟨0, 0, 0, 0, 0, 0, true, ⟨-1, ⟨0, 0, 0, 0⟩⟩⟩
        ⟨[0, 0, 0, 0, 0, 0, 0, 0], false, ⟨0, 0, 1, 0⟩, 8, false⟩ (by decide) (by decide)).2.1
        (by decide)).1⟩

/-- C7: a press of LB or of RB hands no command to the injector. The `LB_BTN` and `RB_BTN`
cases of the switch only print `scroll up!` resp. `scroll down!`; the effect on the injector
is that of an unhandled button such as Y, in both variants, and `SCROLL_U` and `SCROLL_D`
are not used. -/
theorem lb_rb_press_emits_no_scroll :
    buttonSwitch LB_BTN false = ([Out.print "scroll up!\n"], false)
      ∧ buttonSwitch RB_BTN false = ([Out.print "scroll down!\n"], false)
      ∧ commands (buttonSwitch LB_BTN false).1 = commands (buttonSwitch Y_BTN false).1
      ∧ commands (buttonSwitch RB_BTN false).1 = commands (buttonSwitch Y_BTN false).1
      ∧ commands (dispatchBlock ⟨[0, 0, 0, 0, 0, 0, 0, 0], false, 0, ⟨0, 1, 1, 4⟩, false⟩
          ⟨0, 0, 0, 0, 0, 0, true, ⟨-1, ⟨0, 0, 0, 0⟩⟩⟩).2 = []
      ∧ commands (dispatchBlock ⟨[0, 0, 0, 0, 0, 0, 0, 0], false, 0, ⟨0, 1, 1, 5⟩, false⟩
          ⟨0, 0, 0, 0, 0, 0, true, ⟨-1, ⟨0, 0, 0, 0⟩⟩⟩).2 = []
      ∧ (V1.dispatchBlock ⟨[0, 0, 0, 0, 0, 0, 0, 0], false, ⟨0, 1, 1, 4⟩, 8, false⟩).map
          (fun r => commands r.2) = some []
      ∧ (V1.dispatchBlock ⟨[0, 0, 0, 0, 0, 0, 0, 0], false, ⟨0, 1, 1, 5⟩, 8, false⟩).map
          (fun r => commands r.2) = some [] := by
  decide

/-! ## The loop of `js2mouse.c`: block lemmas -/

/-- An in-bounds store succeeds and keeps the length. -/
theorem writeAxis_of_lt (axes : List Int) (i : Nat) (v : Int) (h : i < axes.length) :
    writeAxis axes i v = some (axes.set i v) ∧ (axes.set i v).length = axes.length := by
  unfold writeAxis
  rw [if_pos h]
  exact ⟨rfl, List.length_set _ _ _⟩

/-- With both stick indices in bounds `handleStick` returns 0 or 1 and emits at most one
command, a `mousemove_relative`. -/
theorem handleStick_in_bounds (axes : List Int) (hAxisNum vAxisNum : Nat) (deadZone : Int)
    (hH : hAxisNum < axes.length) (hV : vAxisNum < axes.length) :
    ∃ success out, handleStick axes axes.length hAxisNum vAxisNum deadZone = some (success, out)
      ∧ (success = 0 ∨ success = 1)
      ∧ (out = [] ∨ ∃ a b, out = [Out.system (mousemoveCmd a b)]) := by
  have hN := stickNudges_of_lt axes hAxisNum vAxisNum deadZone hH hV
  obtain ⟨h2, _⟩ := handleStick_of_values axes _ _ _ deadZone _ _ hN
  generalize (if axes[hAxisNum] < deadZone ∧ axes[hAxisNum] > negInt32 deadZone then (0 : Int)
    else Int.tdiv axes[hAxisNum] 10000) = a at h2
  generalize (if axes[vAxisNum] < deadZone ∧ axes[vAxisNum] > negInt32 deadZone then (0 : Int)
    else Int.tdiv axes[vAxisNum] 10000) = b at h2
  by_cases hab : (a, b) ≠ (0, 0)
  · rw [if_pos hab] at h2
    exact ⟨1, _, h2, Or.inr rfl, Or.inr ⟨a, b, rfl⟩⟩
  · rw [if_neg hab] at h2
    exact ⟨0, _, h2, Or.inl rfl, Or.inl rfl⟩

/-- The stick block of `js2mouse.c` completes when the event number and both stick pairs are
indices of `axes`; it changes neither `event`, `quit` nor `lefty`, leaves `timeSince` or sets
it to `nowStick`, and emits at most a `mousemove_relative` command. -/
theorem stickBlock_in_bounds (s : LoopState) (w : Poll)
    (hN : s.event.number < s.axes.length) (hL : R_STICK_V < s.axes.length) :
    ∃ s2 out, stickBlock s w = some (s2, out)
      ∧ s2.event = s.event ∧ s2.quit = s.quit ∧ s2.lefty = s.lefty
      ∧ s2.axes = s.axes.set s.event.number s.event.value
      ∧ (s2.timeSince = s.timeSince ∨ s2.timeSince = w.nowStick)
      ∧ (commands out = [] ∨ ∃ a b, commands out = [mousemoveCmd a b]) := by
  obtain ⟨hw, hlen⟩ := writeAxis_of_lt s.axes s.event.number s.event.value hN
  have hL4 : 4 < (s.axes.set s.event.number s.event.value).length := by
    rw [hlen]; exact hL
  have hr : ∃ success out,
      (if s.lefty then
          handleStick (s.axes.set s.event.number s.event.value)
            (s.axes.set s.event.number s.event.value).length L_STICK_H L_STICK_V L_STICK_DEADZ
        else
          handleStick (s.axes.set s.event.number s.event.value)
            (s.axes.set s.event.number s.event.value).length R_STICK_H R_STICK_V R_STICK_DEADZ)
        = some (success, out)
      ∧ (success = 0 ∨ success = 1)
      ∧ (out = [] ∨ ∃ a b, out = [Out.system (mousemoveCmd a b)]) := by
    cases s.lefty
    · exact handleStick_in_bounds _ R_STICK_H R_STICK_V R_STICK_DEADZ
        (by unfold R_STICK_H; omega) (by unfold R_STICK_V; omega)
    · exact handleStick_in_bounds _ L_STICK_H L_STICK_V L_STICK_DEADZ
        (by unfold L_STICK_H; omega) (by unfold L_STICK_V; omega)
  obtain ⟨success, out, hr1, hsucc, hout⟩ := hr
  have hc : commands out = [] ∨ ∃ a b, commands out = [mousemoveCmd a b] := by
    rcases hout with h | ⟨a, b, h⟩
    · left; rw [h]; rfl
    · right; exact ⟨a, b, by rw [h]; rfl⟩
  have hcm : commands (out ++ [Out.print "moo\n"]) = commands out := by
    rcases hout with h | ⟨a, b, h⟩ <;> rw [h] <;> rfl
  unfold stickBlock
  rw [hw]
  simp only []
  rw [hr1]
  simp only []
  by_cases ht : -1 = s.timeSince
  · rw [if_pos ht]
    refine ⟨_, _, rfl, rfl, rfl, rfl, rfl, Or.inr rfl, ?_⟩
    rcases hout with h | ⟨a, b, h⟩
    · left; rw [h]; rfl
    · right; exact ⟨a, b, by rw [h]; rfl⟩
  · rw [if_neg ht]
    by_cases h1 : 1 = success
    · rw [if_pos h1]
      refine ⟨_, _, rfl, rfl, rfl, rfl, rfl, Or.inr rfl, ?_⟩
      rw [hcm]
      exact hc
    · rw [if_neg h1]
      exact ⟨_, _, rfl, rfl, rfl, rfl, rfl, Or.inl rfl, hc⟩

/-- Whenever the stick block completes it leaves `timeSince` or sets it to `nowStick`, and it
keeps `event` and `quit`. -/
theorem stickBlock_frame (s : LoopState) (w : Poll) (s2 : LoopState) (out : List Out)
    (h : stickBlock s w = some (s2, out)) :
    s2.event = s.event ∧ s2.quit = s.quit
      ∧ (s2.timeSince = s.timeSince ∨ s2.timeSince = w.nowStick) := by
  unfold stickBlock at h
  split at h
  · exact absurd h (by simp)
  · simp only [] at h
    split at h
    · exact absurd h (by simp)
    · split_ifs at h <;> simp only [Option.some.injEq, Prod.mk.injEq] at h <;>
        obtain ⟨h1, _⟩ := h <;> subst h1 <;> simp

/-- The button and d-pad branches leave `timeSince` or set it to `nowButton` or `nowDpad`;
they keep `event` and `axes`. -/
theorem dispatchBlock_frame (s : LoopState) (w : Poll) :
    (dispatchBlock s w).1.event = s.event ∧ (dispatchBlock s w).1.axes = s.axes
      ∧ ((dispatchBlock s w).1.timeSince = s.timeSince
        ∨ (dispatchBlock s w).1.timeSince = w.nowButton
        ∨ (dispatchBlock s w).1.timeSince = w.nowDpad) := by
  unfold dispatchBlock
  by_cases hp : isButtonPress s.event = true
  · rw [if_pos hp]
    exact ⟨rfl, rfl, Or.inr (Or.inl rfl)⟩
  · rw [if_neg hp]
    by_cases ha : JS_EVENT_AXIS = s.event.type
    · rw [if_pos ha]
      by_cases hh : s.event.number = D_PAD_H
      · rw [if_pos hh]
        dsimp only
        by_cases h0 : 0 = (handleDpadH s.event.value).1
        · rw [if_pos h0]
          exact ⟨rfl, rfl, Or.inr (Or.inr rfl)⟩
        · rw [if_neg h0]
          exact ⟨rfl, rfl, Or.inl rfl⟩
      · rw [if_neg hh]
        by_cases hv : s.event.number = D_PAD_V
        · rw [if_pos hv]
          dsimp only
          by_cases h0 : 0 = (handleDpadV s.event.value).1
          · rw [if_pos h0]
            exact ⟨rfl, rfl, Or.inr (Or.inr rfl)⟩
          · rw [if_neg h0]
            exact ⟨rfl, rfl, Or.inl rfl⟩
        · rw [if_neg hv]
          exact ⟨rfl, rfl, Or.inl rfl⟩
    · rw [if_neg ha]
      exact ⟨rfl, rfl, Or.inl rfl⟩

/-- The read changes only `event`. -/
theorem readBlock_frame (s : LoopState) (w : Poll) :
    (readBlock s w).timeSince = s.timeSince ∧ (readBlock s w).quit = s.quit
      ∧ (readBlock s w).axes = s.axes := by
  unfold readBlock
  split_ifs <;> simp

/-! ## The Home/Xbox button -/

/-- Once `quit` is set the loop of `js2mouse.c` is left at once, with exit status 0 and no
further effect, whatever input is still pending. -/
theorem mainLoop_of_quit (s : LoopState) (ws : List Poll) (h : s.quit = true) :
    mainLoop s ws = (Status.exited 0, []) := by
  cases ws with
  | nil => unfold mainLoop; rw [if_pos h]
  | cons w ws => unfold mainLoop; rw [if_pos h]

/-- In `js2mouse_v1.c` a press of Home/Xbox ends the run from every state of the running
loop: the iteration emits no command, the events still pending are never dispatched, and
the process returns 0. -/
theorem v1_xbox_press_terminates (devicePath : String) (s : V1.LoopState) (r : ReadResult)
    (rs : List ReadResult) (hR : s.numRead = SIZEOF_JS_EVENT) (hQ : s.quit = false)
    (hT : s.event.type = JS_EVENT_BUTTON) (hV : s.event.value = 1)
    (hN : s.event.number = XBOX_BTN) :
    ∃ out, V1.mainLoop devicePath s (r :: rs) = (Status.exited 0, out)
      ∧ commands out = []
      ∧ V1.mainLoop devicePath s (r :: rs) = V1.mainLoop devicePath s [r] := by
  have hP : isButtonPress s.event = true := by
    unfold isButtonPress
    simp [hT, hV]
  have hD : V1.dispatchBlock s
      = some ({ s with quit := true }, [Out.print "quit!\n"]) := by
    unfold V1.dispatchBlock
    rw [if_pos hP, hN]
    rfl
  have hI : V1.iteration s r
      = (some { s with quit := true, event := r.store s.event, numRead := r.numRead },
          [Out.print "quit!\n", Out.print ("numRead: " ++ toString r.numRead ++ "\n")]) := by
    unfold V1.iteration
    rw [hD]
    rfl
  have hrun : s.numRead = SIZEOF_JS_EVENT ∧ s.quit = false := ⟨hR, hQ⟩
  have hstop : ∀ t : V1.LoopState, t.quit = true →
      ¬ (t.numRead = SIZEOF_JS_EVENT ∧ t.quit = false) := by
    intro t ht hc
    rw [ht] at hc
    exact absurd hc.2 (by decide)
  have hend : ∀ (t : V1.LoopState) (l : List ReadResult), t.quit = true →
      V1.mainLoop devicePath t l = (Status.exited 0, V1.epilogue devicePath t) := by
    intro t l ht
    cases l with
    | nil => unfold V1.mainLoop; rw [if_neg (hstop t ht)]
    | cons x xs => unfold V1.mainLoop; rw [if_neg (hstop t ht)]
  have hep : ∀ t : V1.LoopState, commands (V1.epilogue devicePath t) = [] := by
    intro t
    unfold V1.epilogue
    split_ifs <;> rfl
  have hone : ∀ l : List ReadResult, V1.mainLoop devicePath s (r :: l)
      = (Status.exited 0,
          [Out.print "quit!\n", Out.print ("numRead: " ++ toString r.numRead ++ "\n")]
            ++ V1.epilogue devicePath
              { s with quit := true, event := r.store s.event, numRead := r.numRead }) := by
    intro l
    rw [V1.mainLoop, if_pos hrun, hI]
    simp only []
    rw [hend _ l rfl]
  refine ⟨_, hone rs, ?_, ?_⟩
  · simp only [List.cons_append, List.nil_append, commands]
    exact hep _
  · rw [hone rs, hone []]

/-- The commands of a concatenated trace. -/
theorem commands_append (a b : List Out) : commands (a ++ b) = commands a ++ commands b := by
  induction a with
  | nil => rfl
  | cons x xs ih =>
    cases x with
    | print t => simpa [commands] using ih
    | system c => simpa [commands] using ih

/-- The timeout check emits no command. -/
theorem timeoutCheck_commands (s : LoopState) (w : Poll) :
    commands (timeoutCheck s w).2 = [] := by
  unfold timeoutCheck
  split_ifs <;> rfl

/-- With the event number and the stick indices in bounds, the event part of an iteration
of `js2mouse.c` that handles a press of Home/Xbox completes with `quit` set and emits at
most the `mousemove_relative` of the stick handling. -/
theorem processEvent_xbox_press (s : LoopState) (w : Poll)
    (hT : s.event.type = JS_EVENT_BUTTON) (hV : s.event.value = 1)
    (hN : s.event.number = XBOX_BTN) (hL : XBOX_BTN < s.axes.length) :
    ∃ s1 out, processEvent s w = (Step.next s1, out) ∧ s1.quit = true
      ∧ (commands out = [] ∨ ∃ a b, commands out = [mousemoveCmd a b]) := by
  have hP : isButtonPress s.event = true := by
    unfold isButtonPress
    simp [hT, hV]
  have hN2 : s.event.number < s.axes.length := by rw [hN]; exact hL
  have hL2 : R_STICK_V < s.axes.length := by
    unfold R_STICK_V
    unfold XBOX_BTN at hL
    omega
  obtain ⟨s2, out1, hsb, he, _, _, _, _, hcmd⟩ := stickBlock_in_bounds s w hN2 hL2
  have hP2 : isButtonPress s2.event = true := by rw [he]; exact hP
  have hD : dispatchBlock s2 w
      = ({ s2 with timeSince := w.nowButton, quit := true }, [Out.print "quit!\n"]) := by
    unfold dispatchBlock
    rw [if_pos hP2, he, hN]
    rfl
  unfold processEvent
  rw [hsb]
  simp only []
  rw [hD]
  refine ⟨_, _, rfl, (readBlock_frame _ w).2.1, ?_⟩
  rw [commands_append]
  simpa [commands] using hcmd

/-- In `js2mouse.c` a press of Home/Xbox ends the run whenever the event number (8) and the
stick indices are indices of `axes`: the process returns 0, the polls still pending are
never used, and the only command the iteration can emit is the `mousemove_relative` of the
stick handling that precedes the button switch. -/
theorem xbox_press_terminates_in_bounds (s : LoopState) (w : Poll) (ws : List Poll)
    (hQ : s.quit = false) (hT : s.event.type = JS_EVENT_BUTTON) (hV : s.event.value = 1)
    (hN : s.event.number = XBOX_BTN) (hL : XBOX_BTN < s.axes.length) :
    ∃ out, mainLoop s (w :: ws) = (Status.exited 0, out)
      ∧ (commands out = [] ∨ ∃ a b, commands out = [mousemoveCmd a b])
      ∧ mainLoop s (w :: ws) = mainLoop s [w] := by
  have hq : ¬ (s.quit = true) := by rw [hQ]; decide
  have key : ∀ l : List Poll, ∃ out, mainLoop s (w :: l) = (Status.exited 0, out)
      ∧ (commands out = [] ∨ ∃ a b, commands out = [mousemoveCmd a b])
      ∧ out = (iteration s w).2 := by
    intro l
    rw [mainLoop, if_neg hq]
    have hc0 := timeoutCheck_commands s w
    unfold iteration
    rcases hch : timeoutCheck s w with ⟨o, out0⟩
    rw [hch] at hc0
    simp only [] at hc0
    cases o with
    | none => exact ⟨_, rfl, Or.inl hc0, rfl⟩
    | some s1 =>
      have hs1 : s1.event = s.event ∧ s1.axes = s.axes := by
        unfold timeoutCheck at hch
        split_ifs at hch <;> simp only [Prod.mk.injEq, Option.some.injEq] at hch
        · exact absurd hch.1 (by simp)
        · obtain ⟨h1, _⟩ := hch
          subst h1
          exact ⟨rfl, rfl⟩
        · obtain ⟨h1, _⟩ := hch
          subst h1
          exact ⟨rfl, rfl⟩
      obtain ⟨s2, out1, hpe, hq2, hcmd⟩ := processEvent_xbox_press s1 w
        (by rw [hs1.1]; exact hT) (by rw [hs1.1]; exact hV) (by rw [hs1.1]; exact hN)
        (by rw [hs1.2]; exact hL)
      simp only []
      rw [hpe]
      simp only []
      rw [mainLoop_of_quit s2 l hq2]
      refine ⟨_, rfl, ?_, by simp⟩
      rw [commands_append, commands_append, hc0]
      simpa [commands] using hcmd
  obtain ⟨out, h1, h2, h3⟩ := key ws
  obtain ⟨out0, h4, _, h6⟩ := key []
  refine ⟨out, h1, h2, ?_⟩
  rw [h1, h4, h3, h6]

/-- C8: in `js2mouse.c` every event, a button press included, is first stored with
`axes[event.number] = event.value`. On a device with 8 axes (the Xbox 360 pad the constants
are written for) a press of Home/Xbox, button 8, is therefore stored one element past the
end of `axes` before the switch that sets `quit` is reached; `js2mouse_v1.c`, which stores
axis events only, ends the same run with exit status 0 and no command. -/
theorem xbox_press_stores_past_axes :
    writeAxis [0, 0, 0, 0, 0, 0, 0, 0] XBOX_BTN 1 = none
      ∧ iteration ⟨[0, 0, 0, 0, 0, 0, 0, 0], false, 100, ⟨0, 1, 1, 8⟩, false⟩
          ⟨100, 0, 100, 100, 100, 100, true, ⟨-1, ⟨0, 0, 0, 0⟩⟩⟩ = (Step.fault, [])
      ∧ mainLoop ⟨[0, 0, 0, 0, 0, 0, 0, 0], false, 100, ⟨0, 1, 1, 8⟩, false⟩
          [⟨100, 0, 100, 100, 100, 100, true, ⟨-1, ⟨0, 0, 0, 0⟩⟩⟩] = (Status.fault, [])
      ∧ V1.mainLoop "/dev/input/js0" ⟨[0, 0, 0, 0, 0, 0, 0, 0], false, ⟨0, 1, 1, 8⟩, 8, false⟩
          [⟨8, ⟨1, 0, 1, 8⟩⟩]
        = (Status.exited 0, [Out.print "quit!\n", Out.print "numRead: 8\n"]) := by
  decide

/-! ## Argument handling -/

/-- The command lines on which the checks of the arguments do what the usage comment says:
with no argument the path is `/dev/input/js0` and the right stick is used; with one argument
other than `L` that fits the buffer the path is `/dev/input/` followed by it and the right
stick is used; `L` as only or as second argument selects the left stick. -/
theorem argumentChecks_forms (program deviceName : String) :
    (argumentChecks [program]).map (fun a => (a.devicePath, a.lefty))
        = some ("/dev/input/js0", false)
      ∧ (deviceName ≠ "L" → 11 + deviceName.utf8ByteSize + 1 ≤ DEVICE_N_LEN →
          (argumentChecks [program, deviceName]).map (fun a => (a.devicePath, a.lefty))
            = some ("/dev/input/" ++ deviceName, false))
      ∧ (argumentChecks [program, "L"]).map (fun a => a.lefty) = some true
      ∧ (argumentChecks [program, deviceName, "L"]).map (fun a => a.lefty) = some true := by
  refine ⟨rfl, ?_, rfl, ?_⟩
  swap
  · have h3 : ¬ ([program, deviceName, "L"].length = 2) := by simp
    have h4 : [program, deviceName, "L"].length ≥ 3 ∧ [program, deviceName, "L"].getD 2 "" = "L" :=
      ⟨by simp, rfl⟩
    unfold argumentChecks
    simp only []
    rw [if_neg h3, if_pos h4]
    rfl
  intro hL hfit
  have h2 : [program, deviceName].length = 2 := rfl
  have hg : [program, deviceName].getD 1 "" = deviceName := rfl
  have hsz : "/dev/input/".utf8ByteSize = 11 := by decide
  unfold argumentChecks
  simp only []
  rw [if_pos h2, hg, if_neg hL]
  unfold strcatDevicePath
  rw [hsz, if_pos hfit]
  rfl

/-- The device path and the stick selection of both variants are those of the checks of the
arguments; `js2mouse.c` only prints `moo` before them. -/
theorem parseArgs_eq_argumentChecks (argv : List String) :
    (parseArgs argv).map (fun a => (a.devicePath, a.lefty))
        = (argumentChecks argv).map (fun a => (a.devicePath, a.lefty))
      ∧ (parseArgs argv).map (fun a => a.out)
        = (argumentChecks argv).map (fun a => Out.print "moo\n" :: a.out)
      ∧ V1.parseArgs argv = argumentChecks argv := by
  unfold parseArgs V1.parseArgs
  cases argumentChecks argv with
  | none => exact ⟨rfl, rfl, rfl⟩
  | some a => exact ⟨rfl, rfl, rfl⟩

/-- The command lines on which argument handling does what the usage comment says, in both
variants. -/
theorem parseArgs_forms (program deviceName : String) :
    (parseArgs [program]).map (fun a => (a.devicePath, a.lefty))
        = some ("/dev/input/js0", false)
      ∧ (deviceName ≠ "L" → 11 + deviceName.utf8ByteSize + 1 ≤ DEVICE_N_LEN →
          (parseArgs [program, deviceName]).map (fun a => (a.devicePath, a.lefty))
            = some ("/dev/input/" ++ deviceName, false))
      ∧ (parseArgs [program, "L"]).map (fun a => a.lefty) = some true
      ∧ (parseArgs [program, deviceName, "L"]).map (fun a => a.lefty) = some true := by
  obtain ⟨h1, h2, h3, h4⟩ := argumentChecks_forms program deviceName
  refine ⟨?_, ?_, ?_, ?_⟩
  · rw [(parseArgs_eq_argumentChecks _).1]
    exact h1
  · intro hL hfit
    rw [(parseArgs_eq_argumentChecks _).1]
    exact h2 hL hfit
  · have h := congrArg (Option.map Prod.snd) (parseArgs_eq_argumentChecks [program, "L"]).1
    simp only [Option.map_map] at h
    exact h.trans h3
  · have h := congrArg (Option.map Prod.snd)
      (parseArgs_eq_argumentChecks [program, deviceName, "L"]).1
    simp only [Option.map_map] at h
    exact h.trans h4

/-- C9: when `L` is given, argument handling appends nothing to the device directory. For
`program L` the path handed to `open` is `/dev/input/`, not `/dev/input/js0`, and for
`program js1 L` it is `/dev/input/`, not `/dev/input/js1`; left-stick mode is selected in
both. The text is the same in both variants. -/
theorem parseArgs_L_opens_device_directory :
    (parseArgs ["js2mouse", "L"]).map (fun a => (a.devicePath, a.lefty))
        = some ("/dev/input/", true)
      ∧ (parseArgs ["js2mouse", "js1", "L"]).map (fun a => (a.devicePath, a.lefty))
        = some ("/dev/input/", true)
      ∧ (parseArgs ["js2mouse", "L"]).map (fun a => a.devicePath) ≠ some "/dev/input/js0"
      ∧ (parseArgs ["js2mouse", "js1", "L"]).map (fun a => a.devicePath)
        ≠ some "/dev/input/js1" := by
  decide

/-! ## The idle timeout -/

/-- Whenever the event part of an iteration completes, `timeSince` is what it was or one of
the clock readings taken in that part. -/
theorem processEvent_timeSince (s : LoopState) (w : Poll) (s1 : LoopState)
    (h : (processEvent s w).1 = Step.next s1) :
    s1.timeSince = s.timeSince ∨ s1.timeSince = w.nowStick ∨ s1.timeSince = w.nowButton
      ∨ s1.timeSince = w.nowDpad := by
  unfold processEvent at h
  rcases hsb : stickBlock s w with _ | ⟨s2, out1⟩
  · rw [hsb] at h
    exact absurd h (by simp)
  · rw [hsb] at h
    simp only [] at h
    have h1 : readBlock (dispatchBlock s2 w).1 w = s1 := Step.next.inj h
    obtain ⟨_, _, hst⟩ := stickBlock_frame s w s2 out1 hsb
    obtain ⟨_, _, hdt⟩ := dispatchBlock_frame s2 w
    have hrt := (readBlock_frame (dispatchBlock s2 w).1 w).1
    rw [h1] at hrt
    rw [hrt]
    rcases hdt with hd | hd | hd
    · rw [hd]
      rcases hst with hs | hs
      · exact Or.inl hs
      · exact Or.inr (Or.inl hs)
    · exact Or.inr (Or.inr (Or.inl hd))
    · exact Or.inr (Or.inr (Or.inr hd))

/-- With the event number and the stick indices in bounds the event part of an iteration
completes. -/
theorem processEvent_next_of_in_bounds (s : LoopState) (w : Poll)
    (hN : s.event.number < s.axes.length) (hL : R_STICK_V < s.axes.length) :
    ∃ s1, (processEvent s w).1 = Step.next s1 := by
  obtain ⟨s2, out1, hsb, _⟩ := stickBlock_in_bounds s w hN hL
  unfold processEvent
  rw [hsb]
  exact ⟨_, rfl⟩

/-- The timeout check shows no prompt while no more than `TIME_OUT` seconds have passed. -/
theorem timeoutCheck_quiet (s : LoopState) (w : Poll) (h : w.now - s.timeSince ≤ TIME_OUT) :
    timeoutCheck s w = (some s, []) := by
  unfold timeoutCheck
  rw [if_neg (not_lt.mpr h)]

/-- C10: in `js2mouse.c`, an iteration that starts with `time(NULL) - timeSince > TIME_OUT`
prints the prompt and reads a response. On `y` the run ends with exit status 0 and nothing
but the prompt and the closing message is produced: the pending event is not dispatched.
On any other response the loop goes on with `timeSince` set to the clock reading taken
after the response, and handles the event as a running iteration does; it completes when
the event number and the stick indices are in bounds. After it `timeSince` is a clock
reading taken at or after the response, so the prompt is not shown again before more than
`TIME_OUT` seconds have passed since then. -/
theorem idle_timeout_confirmation (s : LoopState) (w : Poll) (ws : List Poll)
    (hQ : s.quit = false) (hT : w.now - s.timeSince > TIME_OUT) :
    (w.inC = CHAR_Y →
        mainLoop s (w :: ws) = (Status.exited 0,
          [Out.print "It has been 5 seconds since last input.\n",
            Out.print "Do you want to quit (y/n): ", Out.print "Closing. . . .\n"]))
      ∧ (w.inC ≠ CHAR_Y →
        timeoutCheck s w = (some { s with timeSince := w.nowPrompt },
            [Out.print "It has been 5 seconds since last input.\n",
              Out.print "Do you want to quit (y/n): "])
        ∧ iteration s w = ((processEvent { s with timeSince := w.nowPrompt } w).1,
            [Out.print "It has been 5 seconds since last input.\n",
              Out.print "Do you want to quit (y/n): "]
              ++ (processEvent { s with timeSince := w.nowPrompt } w).2)
        ∧ (s.event.number < s.axes.length → R_STICK_V < s.axes.length →
            ∃ s1, (iteration s w).1 = Step.next s1)
        ∧ (∀ s1, (iteration s w).1 = Step.next s1 →
            (s1.timeSince = w.nowPrompt ∨ s1.timeSince = w.nowStick
              ∨ s1.timeSince = w.nowButton ∨ s1.timeSince = w.nowDpad)
            ∧ (∀ w1 : Poll, w1.now - s1.timeSince ≤ TIME_OUT →
                timeoutCheck s1 w1 = (some s1, []))
            ∧ (w.nowPrompt ≤ w.nowStick → w.nowPrompt ≤ w.nowButton →
                w.nowPrompt ≤ w.nowDpad →
                ∀ w1 : Poll, w1.now - w.nowPrompt ≤ TIME_OUT →
                  timeoutCheck s1 w1 = (some s1, [])))) := by
  have hmsg : "It has been " ++ toString TIME_OUT ++ " seconds since last input.\n"
      = "It has been 5 seconds since last input.\n" := by decide
  have hq : ¬ (s.quit = true) := by rw [hQ]; decide
  constructor
  · intro hy
    have hy2 : CHAR_Y = w.inC := hy.symm
    rw [mainLoop, if_neg hq]
    unfold iteration timeoutCheck
    rw [if_pos hT, if_pos hy2, hmsg]
    rfl
  · intro hy
    have hy2 : ¬ (CHAR_Y = w.inC) := fun h => hy h.symm
    have htc : timeoutCheck s w = (some { s with timeSince := w.nowPrompt },
        [Out.print "It has been 5 seconds since last input.\n",
          Out.print "Do you want to quit (y/n): "]) := by
      unfold timeoutCheck
      rw [if_pos hT, if_neg hy2, hmsg]
    have hit : iteration s w = ((processEvent { s with timeSince := w.nowPrompt } w).1,
        [Out.print "It has been 5 seconds since last input.\n",
          Out.print "Do you want to quit (y/n): "]
          ++ (processEvent { s with timeSince := w.nowPrompt } w).2) := by
      unfold iteration
      rw [htc]
    refine ⟨htc, hit, ?_, ?_⟩
    · intro hN hL
      rw [hit]
      exact processEvent_next_of_in_bounds { s with timeSince := w.nowPrompt } w hN hL
    · intro s1 hs1
      rw [hit] at hs1
      have hmem := processEvent_timeSince { s with timeSince := w.nowPrompt } w s1 hs1
      refine ⟨hmem, fun w1 h1 => timeoutCheck_quiet s1 w1 h1, ?_⟩
      intro m1 m2 m3 w1 h1
      apply timeoutCheck_quiet
      have hge : w.nowPrompt ≤ s1.timeSince := by
        rcases hmem with h | h | h | h
        · exact le_of_eq h.symm
        · exact le_of_le_of_eq m1 h.symm
        · exact le_of_le_of_eq m2 h.symm
        · exact le_of_le_of_eq m3 h.symm
      unfold TIME_OUT at h1 ⊢
      omega

/-- C10, on a loop idle since time 0 that starts an iteration at time 10: the response `y`
ends the run with exit status 0 after the prompt, and the response `n` (110), given at time
12, continues with `timeSince = 12`. -/
theorem idle_timeout_confirmation_witness :
    ((10 : Int) - 0 > TIME_OUT)
      ∧ mainLoop ⟨[0, 0, 0, 0, 0, 0, 0, 0], false, 0, ⟨0, 0, 2, 0⟩, false⟩
          [⟨10, 121, 12, 12, 12, 12, true, ⟨-1, ⟨0, 0, 0, 0⟩⟩⟩]
        = (Status.exited 0,
            [Out.print "It has been 5 seconds since last input.\n",
              Out.print "Do you want to quit (y/n): ", Out.print "Closing. . . .\n"])
      ∧ timeoutCheck ⟨[0, 0, 0, 0, 0, 0, 0, 0], false, 0, ⟨0, 0, 2, 0⟩, false⟩
          ⟨10, 110, 12, 12, 12, 12, true, ⟨-1, ⟨0, 0, 0, 0⟩⟩⟩
        = (some ⟨[0, 0, 0, 0, 0, 0, 0, 0], false, 12, ⟨0, 0, 2, 0⟩, false⟩,
            [Out.print "It has been 5 seconds since last input.\n",
              Out.print "Do you want to quit (y/n): "]) :=
  ⟨by decide,
    (idle_timeout_confirmation ⟨[0, 0, 0, 0, 0, 0, 0, 0], false, 0, ⟨0, 0, 2, 0⟩, false⟩
      ⟨10, 121, 12, 12, 12, 12, true, ⟨-1, ⟨0, 0, 0, 0⟩⟩⟩ [] (by decide) (by decide)).1
      (by decide),
    ((idle_timeout_confirmation ⟨[0, 0, 0, 0, 0, 0, 0, 0], false, 0, ⟨0, 0, 2, 0⟩, false⟩
      ⟨10, 110, 12, 12, 12, 12, true, ⟨-1, ⟨0, 0, 0, 0⟩⟩⟩ [] (by decide) (by decide)).2
      (by decide)).1⟩

/-! ## The deadzone test and the scale -/

/-- Truncating division by 10000 in terms of flooring division of the absolute value. -/
theorem tdiv_scale_neg (x : Int) (h : x < 0) : Int.tdiv x 10000 = -((-x) / 10000) := by
  have h1 := Int.neg_tdiv (-x) 10000
  rw [neg_neg] at h1
  rw [h1, Int.tdiv_eq_ediv (by omega) (by decide)]

/-- A value of magnitude below the scale has nudge 0. -/
theorem tdiv_scale_eq_zero (x : Int) (hlo : -10000 < x) (hhi : x < 10000) :
    Int.tdiv x 10000 = 0 := by
  by_cases hx : 0 ≤ x
  · rw [Int.tdiv_eq_ediv hx (by decide)]
    omega
  · rw [tdiv_scale_neg x (by omega)]
    omega

/-- A 16-bit value has a nudge between -3 and 3. -/
theorem tdiv_scale_int16 (x : Int) (hlo : -32768 ≤ x) (hhi : x ≤ 32767) :
    -3 ≤ Int.tdiv x 10000 ∧ Int.tdiv x 10000 ≤ 3 := by
  by_cases hx : 0 ≤ x
  · rw [Int.tdiv_eq_ediv hx (by decide)]
    omega
  · rw [tdiv_scale_neg x (by omega)]
    omega

/-- For a deadzone between 0 and the scale, the nudge of the source rule is `value / 10000`
on either branch of the deadzone test. -/
theorem nudge_eq_tdiv (value deadZone : Int) (h0 : 0 ≤ deadZone) (h1 : deadZone ≤ 10000) :
    (if value < deadZone ∧ value > negInt32 deadZone then (0 : Int)
      else Int.tdiv value 10000) = Int.tdiv value 10000 := by
  by_cases hc : value < deadZone ∧ value > negInt32 deadZone
  · rw [if_pos hc]
    rw [negInt32_eq_neg deadZone (by omega) (by omega)] at hc
    exact (tdiv_scale_eq_zero value (by omega) (by omega)).symm
  · rw [if_neg hc]

/-- C17: for every deadzone between 0 and 10000, so for `R_STICK_DEADZ = L_STICK_DEADZ =
1000`, the deadzone test of `handleStick` changes nothing. Whatever the array and the
indices, both variants do what a handler without the test does (same return value in
`js2mouse.c`, same commands in both); for in-bounds indices each nudge is `value / 10000`
truncated, which is 0 whenever `|value| < 10000` and lies between -3 and 3 for a 16-bit
value. -/
theorem deadzone_test_redundant (axes : List Int) (axes_len hAxisNum vAxisNum deadZone : Int)
    (h0 : 0 ≤ deadZone) (h1 : deadZone ≤ 10000) :
    handleStick axes axes_len hAxisNum vAxisNum deadZone
        = handleStickNoDeadzone axes axes_len hAxisNum vAxisNum
      ∧ (V1.handleStick axes axes_len hAxisNum vAxisNum deadZone).map (fun r => commands r.2)
        = (handleStickNoDeadzone axes axes_len hAxisNum vAxisNum).map (fun r => commands r.2)
      ∧ (∀ (i j : Nat) (hi : i < axes.length) (hj : j < axes.length),
          stickNudges axes axes.length i j deadZone
              = Nudges.values (Int.tdiv axes[i] 10000) (Int.tdiv axes[j] 10000)
            ∧ (|axes[i]| < 10000 → Int.tdiv axes[i] 10000 = 0)
            ∧ (-32768 ≤ axes[i] → axes[i] ≤ 32767 →
                -3 ≤ Int.tdiv axes[i] 10000 ∧ Int.tdiv axes[i] 10000 ≤ 3))
      ∧ R_STICK_DEADZ = 1000 ∧ L_STICK_DEADZ = 1000 := by
  refine ⟨?_, ?_, ?_, rfl, rfl⟩
  · unfold handleStick handleStickNoDeadzone stickNudges
    by_cases hb : hAxisNum ≥ axes_len ∨ vAxisNum ≥ axes_len
    · rw [if_pos hb, if_pos hb]
    · rw [if_neg hb, if_neg hb]
      cases readAxis axes hAxisNum with
      | none => rfl
      | some hValue =>
        cases readAxis axes vAxisNum with
        | none => rfl
        | some vValue =>
          simp only [nudge_eq_tdiv _ deadZone h0 h1]
  · unfold V1.handleStick handleStickNoDeadzone stickNudges
    by_cases hb : hAxisNum ≥ axes_len ∨ vAxisNum ≥ axes_len
    · rw [if_pos hb, if_pos hb]
    · rw [if_neg hb, if_neg hb]
      cases readAxis axes hAxisNum with
      | none => rfl
      | some hValue =>
        cases readAxis axes vAxisNum with
        | none => rfl
        | some vValue =>
          simp only [nudge_eq_tdiv _ deadZone h0 h1]
          split_ifs <;> rfl
  · intro i j hi hj
    refine ⟨?_, ?_, ?_⟩
    · rw [stickNudges_of_lt axes i j deadZone hi hj]
      simp only [nudge_eq_tdiv _ deadZone h0 h1]
    · intro habs
      rw [abs_lt] at habs
      exact tdiv_scale_eq_zero _ habs.1 habs.2
    · intro hlo hhi
      exact tdiv_scale_int16 _ hlo hhi

/-- C17, with the configured deadzone 1000 on the stored values 15000, 500, -32768 and
9999: the nudges are those of plain division, 1, 0, -3 and 0. -/
theorem deadzone_test_redundant_witness :
    ((0 : Int) ≤ 1000 ∧ (1000 : Int) ≤ 10000)
      ∧ handleStick [15000, 500, -32768, 9999] 4 0 1 1000
        = handleStickNoDeadzone [15000, 500, -32768, 9999] 4 0 1
      ∧ stickNudges [15000, 500, -32768, 9999] 4 0 1 1000 = Nudges.values 1 0
      ∧ stickNudges [15000, 500, -32768, 9999] 4 2 3 1000 = Nudges.values (-3) 0 :=
  ⟨⟨by decide, by decide⟩,
    (deadzone_test_redundant [15000, 500, -32768, 9999] 4 0 1 1000 (by decide) (by decide)).1,
    ((deadzone_test_redundant [15000, 500, -32768, 9999] 4 0 1 1000 (by decide)
      (by decide)).2.2.1 0 1 (by decide) (by decide)).1,
    ((deadzone_test_redundant [15000, 500, -32768, 9999] 4 0 1 1000 (by decide)
      (by decide)).2.2.1 2 3 (by decide) (by decide)).1⟩

/-! ## Return value of `handleStick` -/

/-- C12: the return value of `handleStick` in `js2mouse.c` is the reverse of what its doc
comment states for the two in-bounds cases. With deadzone 1000 a stored value 15000, outside
the deadzone, returns 1 where the comment says 0, and a stored value 500, inside the
deadzone, returns 0 where the comment says 1; the return value -1 is not given for a
negative index, which is outside the array. -/
theorem handleStick_return_reverses_doc :
    handleStick [15000, 0] 2 0 1 1000
        = some (1, [Out.system "xdotool mousemove_relative -- 1 0"])
      ∧ handleStick [500, 0] 2 0 1 1000 = some (0, [])
      ∧ handleStick [500, 0] 2 0 2 1000 = some (-1, [])
      ∧ handleStick [500, 0] 2 (-1) 0 1000 ≠ some (-1, []) := by
  decide

/-! ## The axis array -/

/-- In `js2mouse_v1.c` the button branch and the branch taken by an event that is neither a
button press nor an axis event leave `axes` as it is, and always complete. -/
theorem v1_non_axis_event_keeps_axes (s : V1.LoopState)
    (hT : s.event.type ≠ JS_EVENT_AXIS) :
    ∃ s1 out, V1.dispatchBlock s = some (s1, out) ∧ s1.axes = s.axes := by
  unfold V1.dispatchBlock
  by_cases hp : isButtonPress s.event = true
  · rw [if_pos hp]
    exact ⟨_, _, rfl, rfl⟩
  · rw [if_neg hp, if_neg (fun h => hT h.symm)]
    exact ⟨_, _, rfl, rfl⟩

/-- In `js2mouse_v1.c` an axis event changes `axes` at its own index only: whenever the axis
branch completes, `axes` is the old array with the element at `event.number` replaced by
`event.value`. -/
theorem v1_axis_event_sets_own_index (s s1 : V1.LoopState) (out : List Out)
    (hT : s.event.type = JS_EVENT_AXIS) (h : V1.dispatchBlock s = some (s1, out)) :
    s1.axes = s.axes.set s.event.number s.event.value := by
  have hp : ¬ (isButtonPress s.event = true) := by
    unfold isButtonPress
    rw [hT]
    have hne : ¬ (JS_EVENT_BUTTON = JS_EVENT_AXIS) := by decide
    simp [hne]
  unfold V1.dispatchBlock at h
  rw [if_neg hp, if_pos hT.symm] at h
  unfold writeAxis at h
  by_cases hb : s.event.number < s.axes.length
  · rw [if_pos hb] at h
    simp only [] at h
    split_ifs at h
    all_goals first
      | (simp only [Option.some.injEq, Prod.mk.injEq] at h
         obtain ⟨h1, _⟩ := h
         rw [← h1])
      | (split at h
         · exact absurd h (by simp)
         · simp only [Option.some.injEq, Prod.mk.injEq] at h
           obtain ⟨h1, _⟩ := h
           rw [← h1])
  · rw [if_neg hb] at h
    exact absurd h (by simp)

/-- In `js2mouse.c` every event whose handling completes has been stored in `axes` at the
index `event.number`, whatever its type. -/
theorem processEvent_axes (s s1 : LoopState) (w : Poll)
    (h : (processEvent s w).1 = Step.next s1) :
    s1.axes = s.axes.set s.event.number s.event.value := by
  unfold processEvent at h
  rcases hsb : stickBlock s w with _ | ⟨s2, out1⟩
  · rw [hsb] at h
    exact absurd h (by simp)
  · rw [hsb] at h
    simp only [] at h
    have h1 : readBlock (dispatchBlock s2 w).1 w = s1 := Step.next.inj h
    have h2 : s2.axes = s.axes.set s.event.number s.event.value := by
      unfold stickBlock at hsb
      unfold writeAxis at hsb
      by_cases hb : s.event.number < s.axes.length
      · rw [if_pos hb] at hsb
        simp only [] at hsb
        split at hsb
        · exact absurd hsb (by simp)
        · split_ifs at hsb <;> simp only [Option.some.injEq, Prod.mk.injEq] at hsb <;>
            obtain ⟨h3, _⟩ := hsb <;> rw [← h3]
      · rw [if_neg hb] at hsb
        exact absurd hsb (by simp)
    rw [← h1, (readBlock_frame _ w).2.2, (dispatchBlock_frame s2 w).2.1, h2]

/-- C13: in `js2mouse.c` the store `axes[event.number] = event.value` is made for every
event. A press of A (button 0) while the left stick is held at 20000 replaces the stored
left-stick value by 1, and the release replaces it by 0; `js2mouse_v1.c` leaves the array
as it was on the same events. -/
theorem button_event_overwrites_axis :
    (iteration ⟨[20000, 0, 0, 0, 0, 0, 0, 0], false, 0, ⟨0, 1, 1, 0⟩, false⟩
        ⟨1, 0, 1, 1, 1, 1, true, ⟨-1, ⟨0, 0, 0, 0⟩⟩⟩).1
        = Step.next ⟨[1, 0, 0, 0, 0, 0, 0, 0], false, 1, ⟨0, 1, 1, 0⟩, false⟩
      ∧ (iteration ⟨[20000, 0, 0, 0, 0, 0, 0, 0], false, 0, ⟨0, 0, 1, 0⟩, false⟩
        ⟨1, 0, 1, 1, 1, 1, true, ⟨-1, ⟨0, 0, 0, 0⟩⟩⟩).1
        = Step.next ⟨[0, 0, 0, 0, 0, 0, 0, 0], false, 0, ⟨0, 0, 1, 0⟩, false⟩
      ∧ (V1.dispatchBlock ⟨[20000, 0, 0, 0, 0, 0, 0, 0], false, ⟨0, 1, 1, 0⟩, 8, false⟩).map
          (fun r => r.1.axes) = some [20000, 0, 0, 0, 0, 0, 0, 0]
      ∧ (V1.dispatchBlock ⟨[20000, 0, 0, 0, 0, 0, 0, 0], false, ⟨0, 0, 1, 0⟩, 8, false⟩).map
          (fun r => r.1.axes) = some [20000, 0, 0, 0, 0, 0, 0, 0] := by
  decide

/-! ## Polls without data -/

/-- C14: in `js2mouse.c` the value returned by `read` is not looked at, so a poll that
returns no data leaves the last event in `event` and the next iteration dispatches it
again. One press of A followed by two polls without data gives `xdotool click 1` three
times; in `js2mouse_v1.c`, where `read` blocks, the press gives it once. -/
theorem no_data_poll_dispatches_again :
    commands (mainLoop ⟨[0, 0, 0, 0, 0, 0, 0, 0], false, 0, ⟨0, 1, 1, 0⟩, false⟩
        [⟨1, 0, 1, 1, 1, 1, true, ⟨-1, ⟨0, 0, 0, 0⟩⟩⟩,
          ⟨1, 0, 1, 1, 1, 1, true, ⟨-1, ⟨0, 0, 0, 0⟩⟩⟩,
          ⟨1, 0, 1, 1, 1, 1, true, ⟨-1, ⟨0, 0, 0, 0⟩⟩⟩]).2
        = ["xdotool click 1", "xdotool click 1", "xdotool click 1"]
      ∧ readBlock ⟨[1, 0, 0, 0, 0, 0, 0, 0], false, 1, ⟨0, 1, 1, 0⟩, false⟩
          ⟨1, 0, 1, 1, 1, 1, true, ⟨-1, ⟨0, 0, 0, 0⟩⟩⟩
        = ⟨[1, 0, 0, 0, 0, 0, 0, 0], false, 1, ⟨0, 1, 1, 0⟩, false⟩
      ∧ commands (V1.mainLoop "/dev/input/js0"
          ⟨[0, 0, 0, 0, 0, 0, 0, 0], false, ⟨0, 1, 1, 0⟩, 8, false⟩
          [⟨8, ⟨1, 0, 1, 0⟩⟩, ⟨8, ⟨2, 0, 2, 0⟩⟩, ⟨-1, ⟨0, 0, 0, 0⟩⟩]).2
        = ["xdotool click 1"] := by
  decide

/-! ## The index-error diagnostic -/

/-- C15: in `js2mouse.c` the diagnostic is guarded by `-1 == timeSince`, not by
`-1 == success`. On a device with 4 axes in right-stick mode `handleStick` returns -1 and
the iteration prints nothing at all, while with `timeSince = -1` on a device with 8 axes the
diagnostic is printed although `handleStick` returned 0; the loop keeps running in both
cases. `js2mouse_v1.c` tests `success` and prints the diagnostic. -/
theorem stick_index_error_goes_unreported :
    handleStick [0, 0, 0, 0] 4 3 4 1000 = some (-1, [])
      ∧ iteration ⟨[0, 0, 0, 0], false, 100, ⟨0, 0, 2, 3⟩, false⟩
          ⟨100, 0, 100, 100, 100, 100, true, ⟨-1, ⟨0, 0, 0, 0⟩⟩⟩
        = (Step.next ⟨[0, 0, 0, 0], false, 100, ⟨0, 0, 2, 3⟩, false⟩, [])
      ∧ iteration ⟨[0, 0, 0, 0, 0, 0, 0, 0], false, -1, ⟨0, 0, 2, 3⟩, false⟩
          ⟨-1, 0, -1, 50, 50, 50, true, ⟨-1, ⟨0, 0, 0, 0⟩⟩⟩
        = (Step.next ⟨[0, 0, 0, 0, 0, 0, 0, 0], false, 50, ⟨0, 0, 2, 3⟩, false⟩,
            [Out.print "Error: Tried to move an axis the device does not have\n",
              Out.print "\tAxes to move: 3, 4\n\tAxis count: 8\n"])
      ∧ V1.iteration ⟨[0, 0, 0, 0], false, ⟨0, 0, 2, 3⟩, 8, false⟩ ⟨8, ⟨1, 0, 2, 3⟩⟩
        = (some ⟨[0, 0, 0, 0], false, ⟨1, 0, 2, 3⟩, 8, false⟩,
            [Out.print "Error: Tried to move an axis the device does not have\n",
              Out.print "\tAxes to move: 3, 4\n\tAxis count: 4\n",
              Out.print "numRead: 8\n"]) := by
  decide

/-! ## Failed reads -/

/-- A read that does not deliver a full record leaves the variables of the loop of
`js2mouse.c` as they are. -/
theorem readBlock_of_failed (s : LoopState) (w : Poll)
    (h : w.read.ret ≠ (SIZEOF_JS_EVENT : Int)) : readBlock s w = s := by
  unfold readBlock ReadResult.store
  rw [if_neg h]
  split_ifs <;> rfl

/-- The switch sets `quit` for Home/Xbox only. -/
theorem buttonSwitch_quit (number : Nat) (quit : Bool) (h : number ≠ XBOX_BTN) :
    (buttonSwitch number quit).2 = quit := by
  unfold buttonSwitch
  split_ifs <;> rfl

/-- The button and d-pad branches leave `quit` as it is unless the event is a press of
Home/Xbox. -/
theorem dispatchBlock_quit (s : LoopState) (w : Poll)
    (h : ¬ (isButtonPress s.event = true ∧ s.event.number = XBOX_BTN)) :
    (dispatchBlock s w).1.quit = s.quit := by
  unfold dispatchBlock
  by_cases hp : isButtonPress s.event = true
  · rw [if_pos hp]
    exact buttonSwitch_quit _ _ (fun hx => h ⟨hp, hx⟩)
  · rw [if_neg hp]
    by_cases ha : JS_EVENT_AXIS = s.event.type
    · rw [if_pos ha]
      by_cases hh : s.event.number = D_PAD_H
      · rw [if_pos hh]
        dsimp only
        split_ifs <;> rfl
      · rw [if_neg hh]
        by_cases hv : s.event.number = D_PAD_V
        · rw [if_pos hv]
          dsimp only
          split_ifs <;> rfl
        · rw [if_neg hv]
    · rw [if_neg ha]

/-- A failed read gives a `numRead` other than the record size. -/
theorem numRead_of_failed (r : ReadResult) (hlo : -1 ≤ r.ret) (hhi : r.ret < 8) :
    r.numRead ≠ SIZEOF_JS_EVENT := by
  unfold ReadResult.numRead SIZEOF_JS_EVENT
  omega

/-- C11, refuted for `js2mouse.c`: with a button release pending, two iterations whose
reads fail (the second with the device node gone) leave the loop running with nothing
printed; the process has not returned and no disconnect notice exists. In `js2mouse_v1.c`
the same failed read ends the run with the notice and exit status 0. -/
theorem failed_read_keeps_loop_running :
    mainLoop ⟨[0, 0, 0, 0, 0, 0, 0, 0], false, 0, ⟨0, 0, 1, 0⟩, false⟩
        [⟨1, 0, 1, 1, 1, 1, true, ⟨-1, ⟨0, 0, 0, 0⟩⟩⟩,
          ⟨2, 0, 2, 2, 2, 2, false, ⟨-1, ⟨0, 0, 0, 0⟩⟩⟩]
        = (Status.running ⟨[0, 0, 0, 0, 0, 0, 0, 0], false, 0, ⟨0, 0, 1, 0⟩, false⟩, [])
      ∧ V1.mainLoop "/dev/input/js0"
          ⟨[0, 0, 0, 0, 0, 0, 0, 0], false, ⟨0, 0, 1, 0⟩, 8, false⟩
          [⟨-1, ⟨0, 0, 0, 0⟩⟩, ⟨-1, ⟨0, 0, 0, 0⟩⟩]
        = (Status.exited 0,
            [Out.print "numRead: 18446744073709551615\n",
              Out.print "Device /dev/input/js0 disconnected.\nClosing. . .\n"]) := by
  decide

/-- The timeout check changes `timeSince` only. -/
theorem timeoutCheck_frame (s s0 : LoopState) (w : Poll) (out0 : List Out)
    (h : timeoutCheck s w = (some s0, out0)) :
    s0.event = s.event ∧ s0.quit = s.quit ∧ s0.axes = s.axes := by
  unfold timeoutCheck at h
  split_ifs at h <;> simp only [Prod.mk.injEq, Option.some.injEq] at h
  · exact absurd h.1 (by simp)
  · obtain ⟨h1, _⟩ := h
    subst h1
    exact ⟨rfl, rfl, rfl⟩
  · obtain ⟨h1, _⟩ := h
    subst h1
    exact ⟨rfl, rfl, rfl⟩

/-- The timeout check leaves the loop only on the answer `y`. -/
theorem timeoutCheck_some_of_not_y (s : LoopState) (w : Poll) (h : w.inC ≠ CHAR_Y) :
    ∃ s0 out0, timeoutCheck s w = (some s0, out0) := by
  have h2 : ¬ (CHAR_Y = w.inC) := fun e => h e.symm
  unfold timeoutCheck
  by_cases hd : w.now - s.timeSince > TIME_OUT
  · rw [if_pos hd]
    dsimp only
    rw [if_neg h2]
    exact ⟨_, _, rfl⟩
  · rw [if_neg hd]
    exact ⟨_, _, rfl⟩

/-- Whenever the stick block completes, `axes` has the length it had. -/
theorem stickBlock_length (s : LoopState) (w : Poll) (s2 : LoopState) (out : List Out)
    (h : stickBlock s w = some (s2, out)) : s2.axes.length = s.axes.length := by
  unfold stickBlock at h
  unfold writeAxis at h
  by_cases hb : s.event.number < s.axes.length
  · rw [if_pos hb] at h
    simp only [] at h
    split at h
    · exact absurd h (by simp)
    · split_ifs at h <;> simp only [Option.some.injEq, Prod.mk.injEq] at h <;>
        obtain ⟨h3, _⟩ := h <;> rw [← h3] <;> exact List.length_set _ _ _
  · rw [if_neg hb] at h
    exact absurd h (by simp)

/-- The output of an iteration of `js2mouse.c` does not depend on the result of its read. -/
theorem iteration_output_read_independent (s : LoopState) (w : Poll) (r1 : ReadResult) :
    (iteration s { w with read := r1 }).2 = (iteration s w).2 := by
  have e1 : timeoutCheck s { w with read := r1 } = timeoutCheck s w := rfl
  have e2 : ∀ x, stickBlock x { w with read := r1 } = stickBlock x w := fun _ => rfl
  have e3 : ∀ x, dispatchBlock x { w with read := r1 } = dispatchBlock x w := fun _ => rfl
  unfold iteration
  rw [e1]
  rcases timeoutCheck s w with ⟨o, out0⟩
  cases o with
  | none => rfl
  | some s0 =>
    simp only []
    unfold processEvent
    rw [e2]
    cases stickBlock s0 w with
    | none => rfl
    | some p =>
      simp only []
      rw [e3]

/-- What one iteration of `js2mouse.c` with a failed read gives when the prompt, if shown, is
not answered `y` and the pending event is not a press of Home/Xbox: either the end of the
body, with `event` and `quit` as they were and `axes` of the same length, or an access
outside `axes`, which needs the event number or a stick index to be out of bounds. -/
theorem iteration_failed_read (s : LoopState) (w : Poll) (hQ : s.quit = false)
    (hX : ¬ (isButtonPress s.event = true ∧ s.event.number = XBOX_BTN))
    (hw : w.read.ret ≠ (SIZEOF_JS_EVENT : Int)) (hy : w.inC ≠ CHAR_Y) :
    (∃ s1, (iteration s w).1 = Step.next s1 ∧ s1.event = s.event ∧ s1.quit = false
        ∧ s1.axes.length = s.axes.length)
      ∨ ((iteration s w).1 = Step.fault
        ∧ ¬ (s.event.number < s.axes.length ∧ R_STICK_V < s.axes.length)) := by
  obtain ⟨s0, out0, htc⟩ := timeoutCheck_some_of_not_y s w hy
  obtain ⟨he0, hq0, ha0⟩ := timeoutCheck_frame s s0 w out0 htc
  unfold iteration
  rw [htc]
  simp only []
  unfold processEvent
  rcases hsb : stickBlock s0 w with _ | ⟨s2, out1⟩
  · right
    refine ⟨rfl, ?_⟩
    intro hin
    obtain ⟨s2, out1, hsb2, _⟩ := stickBlock_in_bounds s0 w
      (by rw [he0, ha0]; exact hin.1) (by rw [ha0]; exact hin.2)
    rw [hsb] at hsb2
    exact absurd hsb2 (by simp)
  · left
    simp only []
    obtain ⟨he2, hq2, _⟩ := stickBlock_frame s0 w s2 out1 hsb
    have hX2 : ¬ (isButtonPress s2.event = true ∧ s2.event.number = XBOX_BTN) := by
      rw [he2, he0]; exact hX
    refine ⟨_, rfl, ?_, ?_, ?_⟩
    · rw [readBlock_of_failed _ w hw, (dispatchBlock_frame s2 w).1, he2, he0]
    · rw [readBlock_of_failed _ w hw, dispatchBlock_quit s2 w hX2, hq2, hq0, hQ]
    · rw [readBlock_of_failed _ w hw, (dispatchBlock_frame s2 w).2.1,
        stickBlock_length s0 w s2 out1 hsb, ha0]

/-- Over any number of iterations of `js2mouse.c` whose reads fail and whose prompts are not
answered `y`, with a pending event that is not a press of Home/Xbox, the loop is still
running with that event pending, or has stopped on an access outside `axes`. -/
theorem mainLoop_failed_reads (ws : List Poll) :
    ∀ s : LoopState, s.quit = false →
      ¬ (isButtonPress s.event = true ∧ s.event.number = XBOX_BTN) →
      (∀ p ∈ ws, p.read.ret ≠ (SIZEOF_JS_EVENT : Int) ∧ p.inC ≠ CHAR_Y) →
      (∃ s1, (mainLoop s ws).1 = Status.running s1 ∧ s1.event = s.event ∧ s1.quit = false
          ∧ s1.axes.length = s.axes.length)
        ∨ ((mainLoop s ws).1 = Status.fault
          ∧ ¬ (s.event.number < s.axes.length ∧ R_STICK_V < s.axes.length)) := by
  induction ws with
  | nil =>
    intro s hQ _ _
    left
    refine ⟨s, ?_, rfl, hQ, rfl⟩
    unfold mainLoop
    rw [hQ]
    rfl
  | cons w ws ih =>
    intro s hQ hX hall
    have hq : ¬ (s.quit = true) := by rw [hQ]; decide
    obtain ⟨hw, hy⟩ := hall w (List.mem_cons_self w ws)
    have hrest : ∀ p ∈ ws, p.read.ret ≠ (SIZEOF_JS_EVENT : Int) ∧ p.inC ≠ CHAR_Y :=
      fun p hp => hall p (List.mem_cons_of_mem w hp)
    rw [mainLoop, if_neg hq]
    rcases iteration_failed_read s w hQ hX hw hy with ⟨s1, h1, he, hq1, hl⟩ | ⟨hf, hnb⟩
    · rcases hit : iteration s w with ⟨st, out⟩
      rw [hit] at h1
      simp only [] at h1
      subst h1
      simp only []
      have hX1 : ¬ (isButtonPress s1.event = true ∧ s1.event.number = XBOX_BTN) := by
        rw [he]; exact hX
      rcases ih s1 hq1 hX1 hrest with ⟨s3, h3, he3, hq3, hl3⟩ | ⟨hf3, hnb3⟩
      · exact Or.inl ⟨s3, h3, he3.trans he, hq3, hl3.trans hl⟩
      · right
        refine ⟨hf3, ?_⟩
        rw [he, hl] at hnb3
        exact hnb3
    · rcases hit : iteration s w with ⟨st, out⟩
      rw [hit] at hf
      simp only [] at hf
      subst hf
      exact Or.inr ⟨rfl, hnb⟩

/-- C11, amended: in `js2mouse_v1.c` a read that fails to return a full record ends the run.
After the event that was pending has been handled, nothing more is dispatched and no command
is emitted, the disconnect notice is printed and the process returns 0, whatever reads would
follow. In `js2mouse.c` the value returned by `read` is not examined: a failed read leaves
the variables of the loop as they are, the output of the iteration does not depend on the
result of the read, and the loop does not end because of it. Over any number of iterations
whose reads fail, as long as the pending event is not a press of Home/Xbox and the idle
prompt is not answered `y`, the process does not return, and the loop is still running, with
the same event pending, whenever the event number and the stick indices are indices of
`axes`. -/
theorem failed_read_outcome (devicePath : String) (t : V1.LoopState) (r : ReadResult)
    (rs : List ReadResult) (s : LoopState) (w : Poll)
    (hlo : -1 ≤ r.ret) (hhi : r.ret < 8) (hw : w.read.ret ≠ (SIZEOF_JS_EVENT : Int)) :
    (∀ t1 out, t.numRead = SIZEOF_JS_EVENT → t.quit = false →
        V1.dispatchBlock t = some (t1, out) →
        V1.mainLoop devicePath t (r :: rs)
          = (Status.exited 0, out ++ [Out.print ("numRead: " ++ toString r.numRead ++ "\n"),
              Out.print ("Device " ++ devicePath ++ " disconnected.\nClosing. . .\n")]))
      ∧ readBlock s w = s
      ∧ (∀ r1 : ReadResult, (iteration s { w with read := r1 }).2 = (iteration s w).2)
      ∧ (∀ ws : List Poll, s.quit = false →
          ¬ (isButtonPress s.event = true ∧ s.event.number = XBOX_BTN) →
          (∀ p ∈ ws, p.read.ret ≠ (SIZEOF_JS_EVENT : Int) ∧ p.inC ≠ CHAR_Y) →
          (∀ c, (mainLoop s ws).1 ≠ Status.exited c)
            ∧ (s.event.number < s.axes.length → R_STICK_V < s.axes.length →
                ∃ s1, (mainLoop s ws).1 = Status.running s1 ∧ s1.event = s.event
                  ∧ s1.quit = false)) := by
  refine ⟨?_, readBlock_of_failed s w hw, iteration_output_read_independent s w, ?_⟩
  · intro t1 out hR hQ hD
    have hrun : t.numRead = SIZEOF_JS_EVENT ∧ t.quit = false := ⟨hR, hQ⟩
    have hnr := numRead_of_failed r hlo hhi
    have hstop : ∀ (u : V1.LoopState) (l : List ReadResult), u.numRead ≠ SIZEOF_JS_EVENT →
        V1.mainLoop devicePath u l
          = (Status.exited 0,
              [Out.print ("Device " ++ devicePath ++ " disconnected.\nClosing. . .\n")]) := by
      intro u l hu
      have hc : ¬ (u.numRead = SIZEOF_JS_EVENT ∧ u.quit = false) := fun h => hu h.1
      have he : V1.epilogue devicePath u
          = [Out.print ("Device " ++ devicePath ++ " disconnected.\nClosing. . .\n")] := by
        unfold V1.epilogue
        rw [if_pos (fun h => hu h.symm)]
      cases l with
      | nil => unfold V1.mainLoop; rw [if_neg hc, he]
      | cons x xs => unfold V1.mainLoop; rw [if_neg hc, he]
    rw [V1.mainLoop, if_pos hrun]
    unfold V1.iteration
    rw [hD]
    simp only []
    rw [hstop _ rs hnr]
    simp
  · intro ws hQ hX hall
    rcases mainLoop_failed_reads ws s hQ hX hall with ⟨s1, h1, he, hq1, _⟩ | ⟨hf, hnb⟩
    · refine ⟨?_, fun _ _ => ⟨s1, h1, he, hq1⟩⟩
      intro c hc
      rw [h1] at hc
      exact absurd hc (by simp)
    · refine ⟨?_, fun hN hL => absurd ⟨hN, hL⟩ hnb⟩
      intro c hc
      rw [hf] at hc
      exact absurd hc (by simp)

/-- C11 amended, on a d-pad release pending when the reads fail with -1: `js2mouse_v1.c`
handles the pending event, prints the notice and returns 0; `js2mouse.c` keeps its
variables, and after two iterations in which the idle prompt is shown and answered `n`
(110) it is still running with the same event pending. -/
theorem failed_read_outcome_witness :
    ((-1 : Int) ≤ -1 ∧ (-1 : Int) < 8)
      ∧ V1.mainLoop "/dev/input/js0"
          ⟨[0, 0, 0, 0, 0, 0, 0, 0], false, ⟨0, 0, 2, 6⟩, 8, false⟩
          [⟨-1, ⟨0, 0, 0, 0⟩⟩, ⟨8, ⟨1, 1, 1, 0⟩⟩]
        = (Status.exited 0,
            [Out.print "stop dpad horizontal\n", Out.system "xdotool keyup 114 keyup 113"]
              ++ [Out.print ("numRead: " ++ toString (18446744073709551615 : Nat) ++ "\n"),
                Out.print ("Device " ++ "/dev/input/js0" ++ " disconnected.\nClosing. . .\n")])
      ∧ readBlock ⟨[0, 0, 0, 0, 0, 0, 0, 0], false, 0, ⟨0, 0, 2, 6⟩, false⟩
          ⟨1, 0, 1, 1, 1, 1, true, ⟨-1, ⟨0, 0, 0, 0⟩⟩⟩
        = ⟨[0, 0, 0, 0, 0, 0, 0, 0], false, 0, ⟨0, 0, 2, 6⟩, false⟩
      ∧ (∃ s1, (mainLoop ⟨[0, 0, 0, 0, 0, 0, 0, 0], false, 0, ⟨0, 0, 2, 6⟩, false⟩
            [⟨10, 110, 10, 10, 10, 10, true, ⟨-1, ⟨0, 0, 0, 0⟩⟩⟩,
              ⟨20, 110, 20, 20, 20, 20, false, ⟨-1, ⟨0, 0, 0, 0⟩⟩⟩]).1 = Status.running s1
          ∧ s1.event = ⟨0, 0, 2, 6⟩ ∧ s1.quit = false) :=
  ⟨⟨by decide, by decide⟩,
    (failed_read_outcome "/dev/input/js0"
      ⟨[0, 0, 0, 0, 0, 0, 0, 0], false, ⟨0, 0, 2, 6⟩, 8, false⟩ ⟨-1, ⟨0, 0, 0, 0⟩⟩
      [⟨8, ⟨1, 1, 1, 0⟩⟩] ⟨[0, 0, 0, 0, 0, 0, 0, 0], false, 0, ⟨0, 0, 2, 6⟩, false⟩
      ⟨1, 0, 1, 1, 1, 1, true, ⟨-1, ⟨0, 0, 0, 0⟩⟩⟩ (by decide) (by decide) (by decide)).1
      ⟨[0, 0, 0, 0, 0, 0, 0, 0], false, ⟨0, 0, 2, 6⟩, 8, false⟩
      [Out.print "stop dpad horizontal\n", Out.system "xdotool keyup 114 keyup 113"]
      (by decide) (by decide) (by decide),
    (failed_read_outcome "/dev/input/js0"
      ⟨[0, 0, 0, 0, 0, 0, 0, 0], false, ⟨0, 0, 2, 6⟩, 8, false⟩ ⟨-1, ⟨0, 0, 0, 0⟩⟩
      [⟨8, ⟨1, 1, 1, 0⟩⟩] ⟨[0, 0, 0, 0, 0, 0, 0, 0], false, 0, ⟨0, 0, 2, 6⟩, false⟩
      ⟨1, 0, 1, 1, 1, 1, true, ⟨-1, ⟨0, 0, 0, 0⟩⟩⟩ (by decide) (by decide) (by decide)).2.1,
    ((failed_read_outcome "/dev/input/js0"
      ⟨[0, 0, 0, 0, 0, 0, 0, 0], false, ⟨0, 0, 2, 6⟩, 8, false⟩ ⟨-1, ⟨0, 0, 0, 0⟩⟩
      [⟨8, ⟨1, 1, 1, 0⟩⟩] ⟨[0, 0, 0, 0, 0, 0, 0, 0], false, 0, ⟨0, 0, 2, 6⟩, false⟩
      ⟨1, 0, 1, 1, 1, 1, true, ⟨-1, ⟨0, 0, 0, 0⟩⟩⟩ (by decide) (by decide) (by decide)).2.2.2
      [⟨10, 110, 10, 10, 10, 10, true, ⟨-1, ⟨0, 0, 0, 0⟩⟩⟩,
        ⟨20, 110, 20, 20, 20, 20, false, ⟨-1, ⟨0, 0, 0, 0⟩⟩⟩]
      (by decide) (by decide) (by decide)).2 (by decide) (by decide)⟩

/-! ## The idle clock -/

/-- The three ways `handleStick` of `js2mouse.c` returns: -1 or 0 with no effect, or 1 with
one move command. -/
theorem handleStick_shape (axes : List Int) (axes_len hAxisNum vAxisNum deadZone : Int)
    (r : Int × List Out) (h : handleStick axes axes_len hAxisNum vAxisNum deadZone = some r) :
    r = (-1, []) ∨ r = (0, []) ∨ ∃ a b, r = (1, [Out.system (mousemoveCmd a b)]) := by
  unfold handleStick at h
  cases hN : stickNudges axes axes_len hAxisNum vAxisNum deadZone with
  | indexError =>
    rw [hN] at h
    exact Or.inl (Option.some.inj h).symm
  | outOfBoundsRead =>
    rw [hN] at h
    exact absurd h (by simp)
  | values a b =>
    rw [hN] at h
    simp only [] at h
    split_ifs at h
    · exact Or.inr (Or.inr ⟨a, b, (Option.some.inj h).symm⟩)
    · exact Or.inr (Or.inl (Option.some.inj h).symm)

/-- When the stick block emits a command it sets `timeSince` to `nowStick`. -/
theorem stickBlock_reset_of_command (s : LoopState) (w : Poll) (s2 : LoopState)
    (out : List Out) (h : stickBlock s w = some (s2, out)) (hc : commands out ≠ []) :
    s2.timeSince = w.nowStick := by
  unfold stickBlock at h
  cases hw : writeAxis s.axes s.event.number s.event.value with
  | none =>
    rw [hw] at h
    exact absurd h (by simp)
  | some axes =>
    rw [hw] at h
    simp only [] at h
    cases hr : (if s.lefty then handleStick axes axes.length L_STICK_H L_STICK_V L_STICK_DEADZ
        else handleStick axes axes.length R_STICK_H R_STICK_V R_STICK_DEADZ) with
    | none =>
      rw [hr] at h
      exact absurd h (by simp)
    | some r =>
      rw [hr] at h
      have hshape : r = (-1, []) ∨ r = (0, []) ∨ ∃ a b, r = (1, [Out.system (mousemoveCmd a b)]) := by
        cases hl : s.lefty with
        | true =>
          rw [hl] at hr
          exact handleStick_shape _ _ _ _ _ r hr
        | false =>
          rw [hl] at hr
          exact handleStick_shape _ _ _ _ _ r hr
      rcases hshape with hs | hs | ⟨a, b, hs⟩
      · subst hs
        simp only [] at h
        split_ifs at h <;> simp only [Option.some.injEq, Prod.mk.injEq] at h <;>
          obtain ⟨h1, h2⟩ := h <;> subst h1 <;> subst h2
        all_goals first | rfl | exact absurd rfl hc
      · subst hs
        simp only [] at h
        split_ifs at h <;> simp only [Option.some.injEq, Prod.mk.injEq] at h <;>
          obtain ⟨h1, h2⟩ := h <;> subst h1 <;> subst h2
        all_goals first | rfl | exact absurd rfl hc
      · subst hs
        simp only [] at h
        split_ifs at h <;> simp only [Option.some.injEq, Prod.mk.injEq] at h <;>
          obtain ⟨h1, h2⟩ := h <;> subst h1 <;> rfl

/-- Return value and commands of the d-pad handlers: a key-down returns 0, the key-up of both
keys returns -1. -/
theorem handleDpad_return (value : Int) :
    ((handleDpadH value).1 = 0
        ∨ ((handleDpadH value).1 = -1
          ∧ commands (handleDpadH value).2 = ["xdotool keyup 114 keyup 113"]))
      ∧ ((handleDpadV value).1 = 0
        ∨ ((handleDpadV value).1 = -1
          ∧ commands (handleDpadV value).2 = ["xdotool keyup 116 keyup 111"])) := by
  unfold handleDpadH handleDpadV
  constructor <;> split_ifs <;> first | exact Or.inl rfl | exact Or.inr ⟨rfl, rfl⟩

/-- The button and d-pad branches set `timeSince` to `nowButton` or `nowDpad`, or leave it
and emit no command or only a key-up of both keys of a d-pad axis. -/
theorem dispatchBlock_reset (s : LoopState) (w : Poll) :
    (dispatchBlock s w).1.timeSince = w.nowButton
      ∨ (dispatchBlock s w).1.timeSince = w.nowDpad
      ∨ ((dispatchBlock s w).1.timeSince = s.timeSince
        ∧ (commands (dispatchBlock s w).2 = []
          ∨ commands (dispatchBlock s w).2 = ["xdotool keyup 114 keyup 113"]
          ∨ commands (dispatchBlock s w).2 = ["xdotool keyup 116 keyup 111"])) := by
  unfold dispatchBlock
  by_cases hp : isButtonPress s.event = true
  · rw [if_pos hp]
    exact Or.inl rfl
  · rw [if_neg hp]
    by_cases ha : JS_EVENT_AXIS = s.event.type
    · rw [if_pos ha]
      by_cases hh : s.event.number = D_PAD_H
      · rw [if_pos hh]
        dsimp only
        rcases (handleDpad_return s.event.value).1 with h0 | ⟨h1, hc⟩
        · rw [if_pos h0.symm]
          exact Or.inr (Or.inl rfl)
        · have hn : ¬ (0 = (handleDpadH s.event.value).1) := by rw [h1]; decide
          rw [if_neg hn]
          exact Or.inr (Or.inr ⟨rfl, Or.inr (Or.inl hc)⟩)
      · rw [if_neg hh]
        by_cases hv : s.event.number = D_PAD_V
        · rw [if_pos hv]
          dsimp only
          rcases (handleDpad_return s.event.value).2 with h0 | ⟨h1, hc⟩
          · rw [if_pos h0.symm]
            exact Or.inr (Or.inl rfl)
          · have hn : ¬ (0 = (handleDpadV s.event.value).1) := by rw [h1]; decide
            rw [if_neg hn]
            exact Or.inr (Or.inr ⟨rfl, Or.inr (Or.inr hc)⟩)
        · rw [if_neg hv]
          exact Or.inr (Or.inr ⟨rfl, Or.inl rfl⟩)
    · rw [if_neg ha]
      exact Or.inr (Or.inr ⟨rfl, Or.inl rfl⟩)

/-- C16, refuted as stated: in `js2mouse.c` a d-pad release emits the key-up of both keys
and leaves the idle clock alone. With `timeSince = 100` and every clock reading of the
iteration equal to 103, the command is emitted and `timeSince` is still 100; a key-down
under the same conditions sets it to 103. -/
theorem dpad_release_leaves_idle_clock :
    iteration ⟨[0, 0, 0, 0, 0, 0, 0, 0], false, 100, ⟨0, 0, 2, 6⟩, false⟩
        ⟨103, 0, 103, 103, 103, 103, true, ⟨-1, ⟨0, 0, 0, 0⟩⟩⟩
        = (Step.next ⟨[0, 0, 0, 0, 0, 0, 0, 0], false, 100, ⟨0, 0, 2, 6⟩, false⟩,
            [Out.print "stop dpad horizontal\n", Out.system "xdotool keyup 114 keyup 113"])
      ∧ (100 : Int) ≠ 103
      ∧ iteration ⟨[0, 0, 0, 0, 0, 0, 0, 0], false, 100, ⟨0, 32767, 2, 6⟩, false⟩
          ⟨103, 0, 103, 103, 103, 103, true, ⟨-1, ⟨0, 0, 0, 0⟩⟩⟩
        = (Step.next ⟨[0, 0, 0, 0, 0, 0, 32767, 0], false, 103, ⟨0, 32767, 2, 6⟩, false⟩,
            [Out.print "right\n", Out.system "xdotool keydown 114", Out.print "moo\n"]) := by
  decide

/-- When the stick block emits no command and `timeSince` is not -1, it leaves `timeSince`
as it is. -/
theorem stickBlock_keep_of_no_command (s : LoopState) (w : Poll) (s2 : LoopState)
    (out : List Out) (h : stickBlock s w = some (s2, out)) (hc : commands out = [])
    (ht : s.timeSince ≠ -1) : s2.timeSince = s.timeSince := by
  have ht2 : ¬ (-1 = s.timeSince) := fun e => ht e.symm
  unfold stickBlock at h
  cases hw : writeAxis s.axes s.event.number s.event.value with
  | none =>
    rw [hw] at h
    exact absurd h (by simp)
  | some axes =>
    rw [hw] at h
    simp only [] at h
    cases hr : (if s.lefty then handleStick axes axes.length L_STICK_H L_STICK_V L_STICK_DEADZ
        else handleStick axes axes.length R_STICK_H R_STICK_V R_STICK_DEADZ) with
    | none =>
      rw [hr] at h
      exact absurd h (by simp)
    | some r =>
      rw [hr] at h
      have hshape : r = (-1, []) ∨ r = (0, []) ∨ ∃ a b, r = (1, [Out.system (mousemoveCmd a b)]) := by
        cases hl : s.lefty with
        | true =>
          rw [hl] at hr
          exact handleStick_shape _ _ _ _ _ r hr
        | false =>
          rw [hl] at hr
          exact handleStick_shape _ _ _ _ _ r hr
      rcases hshape with hs | hs | ⟨a, b, hs⟩
      · subst hs
        simp only [] at h
        rw [if_neg ht2, if_neg (by decide)] at h
        simp only [Option.some.injEq, Prod.mk.injEq] at h
        obtain ⟨h1, _⟩ := h
        subst h1
        rfl
      · subst hs
        simp only [] at h
        rw [if_neg ht2, if_neg (by decide)] at h
        simp only [Option.some.injEq, Prod.mk.injEq] at h
        obtain ⟨h1, _⟩ := h
        subst h1
        rfl
      · subst hs
        simp only [] at h
        rw [if_neg ht2, if_pos trivial] at h
        simp only [Option.some.injEq, Prod.mk.injEq] at h
        obtain ⟨_, h2⟩ := h
        subst h2
        exact absurd hc (by simp [commands])

/-- The parts of an iteration that reaches the end of the loop body: the timeout check, the
stick block, the button and d-pad branches and the read, with their outputs in that order. -/
theorem iteration_next_parts (s s1 : LoopState) (w : Poll) (out : List Out)
    (h : iteration s w = (Step.next s1, out)) :
    ∃ s0 out0 s2 out1, timeoutCheck s w = (some s0, out0)
      ∧ stickBlock s0 w = some (s2, out1)
      ∧ s1 = readBlock (dispatchBlock s2 w).1 w
      ∧ out = out0 ++ (out1 ++ (dispatchBlock s2 w).2)
      ∧ s0.event = s.event := by
  unfold iteration at h
  rcases htc : timeoutCheck s w with ⟨o, out0⟩
  rw [htc] at h
  cases o with
  | none => exact absurd (congrArg Prod.fst h) (by simp)
  | some s0 =>
    simp only [] at h
    have he : s0.event = s.event := by
      unfold timeoutCheck at htc
      split_ifs at htc <;> simp only [Prod.mk.injEq, Option.some.injEq] at htc
      · exact absurd htc.1 (by simp)
      · obtain ⟨h1, _⟩ := htc
        subst h1
        rfl
      · obtain ⟨h1, _⟩ := htc
        subst h1
        rfl
    unfold processEvent at h
    rcases hsb : stickBlock s0 w with _ | ⟨s2, out1⟩
    · rw [hsb] at h
      exact absurd (congrArg Prod.fst h) (by simp)
    · rw [hsb] at h
      simp only [Prod.mk.injEq] at h
      obtain ⟨h1, h2⟩ := h
      exact ⟨s0, out0, s2, out1, rfl, hsb, (Step.next.inj h1).symm, h2.symm, he⟩

/-- A horizontal d-pad event in the idle zone takes the key-up branch, which returns -1: the
d-pad branch emits the key-up of both keys and changes no variable. -/
theorem dispatchBlock_dpadH_idle (s : LoopState) (w : Poll)
    (hT : s.event.type = JS_EVENT_AXIS) (hN : s.event.number = D_PAD_H)
    (hlo : -1000 < s.event.value) (hhi : s.event.value ≤ 1000) :
    dispatchBlock s w
      = (s, [Out.print "stop dpad horizontal\n", Out.system "xdotool keyup 114 keyup 113"]) := by
  have hp : ¬ (isButtonPress s.event = true) := by
    unfold isButtonPress
    rw [hT]
    have hne : ¬ (JS_EVENT_BUTTON = JS_EVENT_AXIS) := by decide
    simp [hne]
  have hr : handleDpadH s.event.value
      = (-1, [Out.print "stop dpad horizontal\n",
          Out.system "xdotool keyup 114 keyup 113"]) := by
    unfold handleDpadH D_PAD_DEADZ
    rw [if_neg (by omega), if_pos (by omega)]
  unfold dispatchBlock
  rw [if_neg hp, if_pos hT.symm, if_pos hN]
  dsimp only
  rw [hr]
  rfl

/-- C16, amended: in `js2mouse.c`, when an iteration reaches the end of the loop body and has
emitted a command other than a d-pad key-up of both keys (that is a mouse move, a click or a
d-pad key-down), the idle clock has been set to a clock reading taken while the event was
handled: `timeSince` is `nowStick`, `nowButton` or `nowDpad`. The key-up of both keys of the
horizontal d-pad is not such an action: when it is the only command of the iteration,
`timeSince` is after the iteration exactly what the timeout check left (the old value, or
the reading taken after the answer when the prompt was shown), provided that value is
not -1. -/
theorem action_resets_idle_clock (s s1 : LoopState) (w : Poll) (out : List Out)
    (h : iteration s w = (Step.next s1, out)) :
    ((∃ c ∈ commands out,
          c ≠ "xdotool keyup 114 keyup 113" ∧ c ≠ "xdotool keyup 116 keyup 111") →
        s1.timeSince = w.nowStick ∨ s1.timeSince = w.nowButton ∨ s1.timeSince = w.nowDpad)
      ∧ (s.event.type = JS_EVENT_AXIS → s.event.number = D_PAD_H →
          -1000 < s.event.value → s.event.value ≤ 1000 →
          commands out = ["xdotool keyup 114 keyup 113"] →
          ∀ s0 out0, timeoutCheck s w = (some s0, out0) → s0.timeSince ≠ -1 →
            s1.timeSince = s0.timeSince)
      ∧ (s.event.type = JS_EVENT_AXIS → s.event.number = D_PAD_H →
          -1000 < s.event.value → s.event.value ≤ 1000 →
          commands out = ["xdotool keyup 114 keyup 113"] →
          w.now - s.timeSince ≤ TIME_OUT → s.timeSince ≠ -1 →
            s1.timeSince = s.timeSince) := by
  obtain ⟨s0, out0, s2, out1, htc, hsb, hs1, hout, he⟩ := iteration_next_parts s s1 w out h
  have ht : s1.timeSince = (dispatchBlock s2 w).1.timeSince := by
    rw [hs1]
    exact (readBlock_frame _ w).1
  have hc0 : commands out0 = [] := by
    have := timeoutCheck_commands s w
    rw [htc] at this
    exact this
  have hcmd : commands out = commands out1 ++ commands (dispatchBlock s2 w).2 := by
    rw [hout, commands_append, commands_append, hc0, List.nil_append]
  obtain ⟨he2, _, _⟩ := stickBlock_frame s0 w s2 out1 hsb
  have hkey : s.event.type = JS_EVENT_AXIS → s.event.number = D_PAD_H →
      -1000 < s.event.value → s.event.value ≤ 1000 →
      commands out = ["xdotool keyup 114 keyup 113"] →
      s0.timeSince ≠ -1 → s1.timeSince = s0.timeSince := by
    intro hT hN hlo hhi hco hne
    have hev : s2.event = s.event := he2.trans he
    have hd := dispatchBlock_dpadH_idle s2 w (by rw [hev]; exact hT) (by rw [hev]; exact hN)
      (by rw [hev]; exact hlo) (by rw [hev]; exact hhi)
    rw [hd] at ht hcmd
    have hc1 : commands out1 = [] := by
      rw [hco] at hcmd
      have hlen := congrArg List.length hcmd
      simpa [commands] using hlen
    rw [ht]
    exact stickBlock_keep_of_no_command s0 w s2 out1 hsb hc1 hne
  refine ⟨?_, ?_, ?_⟩
  · rintro ⟨c, hmem, hnH, hnV⟩
    rcases dispatchBlock_reset s2 w with hb | hd | ⟨hk, hdc⟩
    · exact Or.inr (Or.inl (ht.trans hb))
    · exact Or.inr (Or.inr (ht.trans hd))
    · have hin : c ∈ commands out1 := by
        rw [hcmd, List.mem_append] at hmem
        rcases hmem with hm | hm
        · exact hm
        · rcases hdc with h0 | hH | hV
          · rw [h0] at hm
            exact absurd hm (List.not_mem_nil c)
          · rw [hH, List.mem_singleton] at hm
            exact absurd hm hnH
          · rw [hV, List.mem_singleton] at hm
            exact absurd hm hnV
      have hne : commands out1 ≠ [] := List.ne_nil_of_mem hin
      exact Or.inl ((ht.trans hk).trans (stickBlock_reset_of_command s0 w s2 out1 hsb hne))
  · intro hT hN hlo hhi hco t0 o0 htc2 hne
    rw [htc] at htc2
    simp only [Prod.mk.injEq, Option.some.injEq] at htc2
    obtain ⟨h1, _⟩ := htc2
    subst h1
    exact hkey hT hN hlo hhi hco hne
  · intro hT hN hlo hhi hco hquiet hne
    have hq := timeoutCheck_quiet s w hquiet
    rw [htc] at hq
    simp only [Prod.mk.injEq, Option.some.injEq] at hq
    obtain ⟨h1, _⟩ := hq
    subst h1
    exact hkey hT hN hlo hhi hco hne

/-- C16 amended, on two iterations with `timeSince = 100` and clock readings 103 to 105:
with the right stick held at 20000 the iteration emits `xdotool mousemove_relative -- 2 0`
and `timeSince` becomes the reading 103; a horizontal d-pad release emits only the key-up
of both keys and `timeSince` stays 100. -/
theorem action_resets_idle_clock_witness :
    (iteration ⟨[0, 0, 0, 0, 0, 0, 0, 0], false, 100, ⟨0, 20000, 2, 3⟩, false⟩
        ⟨103, 0, 103, 103, 104, 105, true, ⟨-1, ⟨0, 0, 0, 0⟩⟩⟩
        = (Step.next ⟨[0, 0, 0, 20000, 0, 0, 0, 0], false, 103, ⟨0, 20000, 2, 3⟩, false⟩,
            [Out.system "xdotool mousemove_relative -- 2 0", Out.print "moo\n"])
      ∧ ((103 : Int) = 103 ∨ (103 : Int) = 104 ∨ (103 : Int) = 105))
      ∧ (iteration ⟨[0, 0, 0, 0, 0, 0, 0, 0], false, 100, ⟨0, 0, 2, 6⟩, false⟩
        ⟨103, 0, 103, 103, 104, 105, true, ⟨-1, ⟨0, 0, 0, 0⟩⟩⟩
        = (Step.next ⟨[0, 0, 0, 0, 0, 0, 0, 0], false, 100, ⟨0, 0, 2, 6⟩, false⟩,
            [Out.print "stop dpad horizontal\n", Out.system "xdotool keyup 114 keyup 113"])
      ∧ (100 : Int) = 100) :=
  ⟨⟨by decide,
      (action_resets_idle_clock ⟨[0, 0, 0, 0, 0, 0, 0, 0], false, 100, ⟨0, 20000, 2, 3⟩, false⟩
        ⟨[0, 0, 0, 20000, 0, 0, 0, 0], false, 103, ⟨0, 20000, 2, 3⟩, false⟩
        ⟨103, 0, 103, 103, 104, 105, true, ⟨-1, ⟨0, 0, 0, 0⟩⟩⟩
        [Out.system "xdotool mousemove_relative -- 2 0", Out.print "moo\n"] (by decide)).1
        ⟨"xdotool mousemove_relative -- 2 0", by decide, by decide, by decide⟩⟩,
    ⟨by decide,
      (action_resets_idle_clock ⟨[0, 0, 0, 0, 0, 0, 0, 0], false, 100, ⟨0, 0, 2, 6⟩, false⟩
        ⟨[0, 0, 0, 0, 0, 0, 0, 0], false, 100, ⟨0, 0, 2, 6⟩, false⟩
        ⟨103, 0, 103, 103, 104, 105, true, ⟨-1, ⟨0, 0, 0, 0⟩⟩⟩
        [Out.print "stop dpad horizontal\n", Out.system "xdotool keyup 114 keyup 113"]
        (by decide)).2.2 (by decide) (by decide) (by decide) (by decide) (by decide)
        (by decide) (by decide)⟩⟩

end Js2Mouse
